import Mathlib

/-! qwen3-compatibility: the request translation pipeline.

A shallow embedding of the Go sources

* `internal/errors/errors.go`      (error kinds and their HTTP status),
* `internal/models/types.go`       (data model, supported languages),
* `internal/services/upload.go`    (file validation, upload orchestration),
* `internal/services/asr.go`       (response translation),
* `pkg/client/dashscope.go`        (object-store upload, multipart form),
* `internal/handlers/transcription.go` (the HTTP handler),

followed by theorems about them.

Conventions of the embedding.  A Go `string` is a Lean `String` (valid UTF-8).
Go `int64` and `int` values are `Int`; the code compares and prints them and
never does arithmetic that could overflow on the paths modelled here.  A Go
pointer that may be `nil` is an `Option`.  A Go `error` result is a `GoError`,
a function returning `(T, error)` returns `Except GoError T`.  Calls on an
injected interface are recorded in an explicit trace.  The pieces of the Go
standard library whose tables are not part of this repository (Unicode case
tables, the extension to MIME table, the path separator of the platform) are
the fields of `GoRuntime`; every theorem holds for every such runtime.
-/

namespace Qwen3Compat

/-! ## Go standard library pieces used by the sources -/

/-- A `time.Time`, as the nanoseconds elapsed since the Unix epoch. -/
structure Time where
  UnixNano : Int
  deriving DecidableEq, Repr

/-- The method `Time.Unix`: whole seconds since the epoch. -/
def Time.Unix (t : Time) : Int := t.UnixNano / 1000000000

/-- A Go `int64` product or sum brought back into the range of `int64`. -/
def wrapInt64 (x : Int) : Int := (x + 2 ^ 63) % 2 ^ 64 - 2 ^ 63

/-- The constant `time.Hour`, in nanoseconds. -/
def Hour : Int := 3600000000000

/-- The method `Time.Add` with a `time.Duration` in nanoseconds. -/
def Time.Add (t : Time) (d : Int) : Time := { UnixNano := t.UnixNano + d }

/-- The method `Duration.Milliseconds`: integer division truncating toward zero. -/
def Milliseconds (d : Int) : Int := Int.tdiv d 1000000

/-- A byte sequence. -/
abbrev Bytes := List UInt8

/-- The tables of the Go standard library the sources depend on. -/
structure GoRuntime where
  /-- The layout `time.RFC3339` applied by `Time.Format`. -/
  FormatRFC3339 : Time → String
  /-- The table behind `unicode.SimpleFold`. -/
  SimpleFold : Char → Char
  /-- The table behind `unicode.ToLower`. -/
  UnicodeToLower : Char → Char
  /-- The table behind `mime.TypeByExtension`; the empty string when the extension is unknown. -/
  TypeByExtension : String → String
  /-- The predicate `os.IsPathSeparator`. -/
  IsPathSeparator : Char → Bool

/-- The verb `%d` of `fmt` on an integer. -/
def fmtInt : Int → String
  | Int.ofNat k => Nat.repr k
  | Int.negSucc k => "-" ++ Nat.repr (k + 1)

/-- The verb `%v` of `fmt` on a `[]string`: the elements separated by blanks, in brackets. -/
def fmtStrings (xs : List String) : String :=
  "[" ++ " ".intercalate xs ++ "]"

/-- The function `strings.HasPrefix`. -/
def HasPrefix (s p : String) : Bool :=
  p.toList.isPrefixOf s.toList

/-- The ASCII test `'A' <= c && c <= 'Z'`. -/
def isUpperASCII (c : Char) : Bool :=
  decide ('A'.toNat ≤ c.toNat ∧ c.toNat ≤ 'Z'.toNat)

/-- The loop `for r != sr && r < tr { r = unicode.SimpleFold(r) }` of `strings.EqualFold`,
followed by its test `r == tr`.  The Unicode table has finite orbits; the walk is cut after
`fuel` steps. -/
def foldWalk (rt : GoRuntime) (sr tr : Char) : Nat → Char → Bool
  | 0, _ => false
  | fuel + 1, r =>
    if r ≠ sr ∧ r.toNat < tr.toNat then foldWalk rt sr tr fuel (rt.SimpleFold r) else r == tr

/-- One iteration of the rune loop of `strings.EqualFold` on the runes `sr` and `tr`. -/
def runeEqualFold (rt : GoRuntime) (sr tr : Char) : Bool :=
  if tr = sr then true
  else
    let lo := if tr.toNat < sr.toNat then tr else sr
    let hi := if tr.toNat < sr.toNat then sr else tr
    if hi.toNat < 0x80 then
      isUpperASCII lo && decide (hi.toNat = lo.toNat + ('a'.toNat - 'A'.toNat))
    else
      foldWalk rt lo hi 0x110000 (rt.SimpleFold lo)

/-- The rune loop of `strings.EqualFold`. -/
def equalFoldRunes (rt : GoRuntime) : List Char → List Char → Bool
  | [], [] => true
  | s :: ss, t :: ts => runeEqualFold rt s t && equalFoldRunes rt ss ts
  | _, _ => false

/-- The function `strings.EqualFold`: equality under Unicode simple case folding. -/
def EqualFold (rt : GoRuntime) (s t : String) : Bool :=
  equalFoldRunes rt s.toList t.toList

/-- The function `strings.ToLower`: ASCII-only strings are lowered byte by byte, all
others rune by rune through `unicode.ToLower`. -/
def ToLower (rt : GoRuntime) (s : String) : String :=
  if s.toList.all (fun c => decide (c.toNat < 0x80)) then
    String.mk (s.toList.map (fun c => if isUpperASCII c then Char.ofNat (c.toNat + 32) else c))
  else
    String.mk (s.toList.map rt.UnicodeToLower)

/-- The backward scan of `filepath.Ext` over the reversed path; `acc` is the suffix
already passed. -/
def extScan (rt : GoRuntime) : List Char → List Char → List Char
  | [], _ => []
  | c :: rest, acc =>
    if rt.IsPathSeparator c then []
    else if c = '.' then c :: acc
    else extScan rt rest (c :: acc)

/-- The function `filepath.Ext`: the suffix from the last dot of the last path element. -/
def Ext (rt : GoRuntime) (path : String) : String :=
  String.mk (extScan rt path.toList.reverse [])

/-! ## internal/errors/errors.go -/

def StatusOK : Int := 200
def StatusBadRequest : Int := 400
def StatusUnauthorized : Int := 401
def StatusInternalServerError : Int := 500
def StatusBadGateway : Int := 502

/-- The struct `APIError`. -/
structure APIError where
  Code : Int
  Message : String
  Details : String
  deriving DecidableEq, Repr

/-- The method `APIError.HTTPStatus`. -/
def APIError.HTTPStatus (e : APIError) : Int := e.Code

/-- The method `APIError.Error`. -/
def APIError.Error (e : APIError) : String :=
  "API Error " ++ fmtInt e.Code ++ ": " ++ e.Message

def NewInternalServerError (message : String) : APIError :=
  { Code := StatusInternalServerError, Message := message, Details := "" }

def NewFileSizeError (maxSize : Int) : APIError :=
  { Code := StatusBadRequest,
    Message := "File too large. Maximum size is " ++ fmtInt maxSize ++ " bytes",
    Details := "" }

def NewFileTypeError (allowedTypes : List String) : APIError :=
  { Code := StatusBadRequest,
    Message := "Unsupported file type",
    Details := "Allowed types: " ++ fmtStrings allowedTypes }

def NewExternalServiceError (service details : String) : APIError :=
  { Code := StatusBadGateway,
    Message := "External service error: " ++ service,
    Details := details }

def NewUploadError (details : String) : APIError :=
  { Code := StatusInternalServerError, Message := "File upload failed", Details := details }

/-- A value of the Go interface `error` as the sources produce it: an `*APIError`,
an error wrapped by `fmt.Errorf` with `%w`, or an error of another package. -/
inductive GoError where
  | api (e : APIError)
  | wrapped (msg : String) (inner : GoError)
  | other (msg : String)
  deriving DecidableEq, Repr

/-- The method `Error` of an error value. -/
def GoError.Error : GoError → String
  | .api e => e.Error
  | .wrapped msg _ => msg
  | .other msg => msg

/-- The call `fmt.Errorf(text + ": %w", err)`. -/
def Errorf (text : String) (err : GoError) : GoError :=
  .wrapped (text ++ ": " ++ err.Error) err

/-- The function `IsAPIError`: a type assertion, which does not look through wrapping. -/
def IsAPIError : GoError → Option APIError
  | .api e => some e
  | _ => none

/-! ## internal/config/config.go -/

/-- The struct `UploadConfig`. -/
structure UploadConfig where
  MaxFileSize : Int
  AllowedTypes : List String
  deriving DecidableEq, Repr

/-! ## mime/multipart.FileHeader -/

/-- The value `textproto.MIMEHeader`: canonical header names with their values. -/
abbrev MIMEHeader := List (String × List String)

/-- The method `MIMEHeader.Get`: the first value of the key, or the empty string. -/
def MIMEHeader.Get (h : MIMEHeader) (key : String) : String :=
  match h.lookup key with
  | some (v :: _) => v
  | _ => ""

/-- The struct `multipart.FileHeader`. -/
structure FileHeader where
  Filename : String
  Header : MIMEHeader
  Size : Int
  deriving DecidableEq, Repr

/-! ## internal/services/upload.go: validation -/

/-- The method `UploadService.isContentTypeAllowed`. -/
def isContentTypeAllowed (rt : GoRuntime) (cfg : UploadConfig) (contentType : String) : Bool :=
  if HasPrefix contentType "multipart/" then false
  else cfg.AllowedTypes.any (fun allowedType => EqualFold rt contentType allowedType)

/-- The content type `ValidateFile` settles on: the declared header, or, when that is
empty, the type of the lower-cased extension of the file name. -/
def resolveContentType (rt : GoRuntime) (header : FileHeader) : String :=
  let contentType := header.Header.Get "Content-Type"
  if contentType = "" then rt.TypeByExtension (ToLower rt (Ext rt header.Filename))
  else contentType

/-- The method `UploadService.ValidateFile`; `none` is the `nil` error. -/
def ValidateFile (rt : GoRuntime) (cfg : UploadConfig) (header : FileHeader) : Option APIError :=
  if header.Size > cfg.MaxFileSize then some (NewFileSizeError cfg.MaxFileSize)
  else
    let contentType := resolveContentType rt header
    if contentType = "" then some (NewFileTypeError cfg.AllowedTypes)
    else if !isContentTypeAllowed rt cfg contentType then some (NewFileTypeError cfg.AllowedTypes)
    else none

/-! ## internal/models/types.go -/

/-- The type `SupportedLanguage`, a Go string type. -/
abbrev SupportedLanguage := String

def LanguageZh : SupportedLanguage := "zh"
def LanguageYue : SupportedLanguage := "yue"
def LanguageEn : SupportedLanguage := "en"
def LanguageJa : SupportedLanguage := "ja"
def LanguageDe : SupportedLanguage := "de"
def LanguageKo : SupportedLanguage := "ko"
def LanguageRu : SupportedLanguage := "ru"
def LanguageFr : SupportedLanguage := "fr"
def LanguagePt : SupportedLanguage := "pt"
def LanguageAr : SupportedLanguage := "ar"
def LanguageIt : SupportedLanguage := "it"
def LanguageEs : SupportedLanguage := "es"
def LanguageHi : SupportedLanguage := "hi"
def LanguageId : SupportedLanguage := "id"
def LanguageTh : SupportedLanguage := "th"
def LanguageTr : SupportedLanguage := "tr"
def LanguageUk : SupportedLanguage := "uk"
def LanguageVi : SupportedLanguage := "vi"

/-- The variable `SupportedLanguages`. -/
def SupportedLanguages : List SupportedLanguage :=
  [LanguageZh, LanguageYue, LanguageEn, LanguageJa, LanguageDe, LanguageKo, LanguageRu, LanguageFr,
   LanguagePt, LanguageAr, LanguageIt, LanguageEs, LanguageHi, LanguageId, LanguageTh, LanguageTr,
   LanguageUk, LanguageVi]

/-- The function `IsValidLanguage`: the loop over `SupportedLanguages`. -/
def IsValidLanguage (lang : String) : Bool :=
  SupportedLanguages.any (fun supportedLang => decide (supportedLang = lang))

/-- A Go `float64`, as its IEEE 754 bit pattern; the sources copy such values and never
compute with them. -/
structure Float64 where
  bits : Nat
  deriving DecidableEq, Repr

/-- The zero value of `float64`. -/
def Float64.zero : Float64 := { bits := 0 }

structure ASRContent where
  Text : String
  Audio : String
  deriving DecidableEq, Repr

/-- The struct `ASRAnnotation`; its Go field `Type` is `Kind` here, `Type` being a Lean keyword. -/
structure ASRAnnotation where
  Language : SupportedLanguage
  Kind : String
  Emotion : String
  deriving DecidableEq, Repr

structure ASRMessage where
  Role : String
  Content : List ASRContent
  Annotations : List ASRAnnotation
  deriving DecidableEq, Repr

structure ASRChoice where
  FinishReason : String
  Message : ASRMessage
  deriving DecidableEq, Repr

structure ASRInputTokensDetails where
  TextTokens : Int
  deriving DecidableEq, Repr

structure ASROutputTokensDetails where
  TextTokens : Int
  deriving DecidableEq, Repr

structure ASRUsage where
  InputTokensDetails : Option ASRInputTokensDetails
  OutputTokensDetails : ASROutputTokensDetails
  Seconds : Option Float64
  deriving DecidableEq, Repr

structure ASROutput where
  Choices : List ASRChoice
  deriving DecidableEq, Repr

structure ASRResponse where
  Output : ASROutput
  Usage : ASRUsage
  Request : String
  deriving DecidableEq, Repr

structure UploadPolicyData where
  UploadDir : String
  UploadHost : String
  OSSAccessKeyID : String
  Signature : String
  Policy : String
  XOSSObjectACL : String
  XOSSForbidOverwrite : String
  deriving DecidableEq, Repr

structure UploadResult where
  OSSURL : String
  ExpireTime : Time
  ModelUsed : String
  deriving DecidableEq, Repr

structure TranscriptionWord where
  Word : String
  Start : Float64
  End : Float64
  deriving DecidableEq, Repr

structure UploadInfo where
  OSSURL : String
  ExpireTime : String
  ModelUsed : String
  deriving DecidableEq, Repr

structure TranscriptionResponse where
  Text : String
  Task : String
  Language : String
  Duration : Float64
  Words : List TranscriptionWord
  UploadInfo : Option UploadInfo
  ProcessingTime : Int
  deriving DecidableEq, Repr

structure ErrorResponse where
  Error : String
  Code : Int
  deriving DecidableEq, Repr

/-- The struct `ASROptions`. -/
structure ASROptions where
  EnableITN : Bool
  Language : SupportedLanguage
  deriving DecidableEq, Repr

structure ASRParameters where
  ASROptions : ASROptions
  deriving DecidableEq, Repr

structure ASRInput where
  Messages : List ASRMessage
  deriving DecidableEq, Repr

structure ASRRequest where
  Model : String
  Input : ASRInput
  Parameters : ASRParameters
  deriving DecidableEq, Repr

/-! ## io.Reader, mime/multipart.Writer, net/http -/

/-- An `io.Reader` read to its end: the bytes it delivers, and the error it ends with
when it does not end with `io.EOF`. -/
structure Reader where
  data : Bytes
  err : Option GoError
  deriving DecidableEq, Repr

/-- One part of a multipart form: a form field written by `WriteField`, or a file part
opened by `CreateFormFile` with the bytes streamed into it. -/
inductive FormPart where
  | field (name value : String)
  | file (fieldname filename : String) (content : Bytes)
  deriving DecidableEq, Repr

/-- The field name of a part. -/
def FormPart.name : FormPart → String
  | .field name _ => name
  | .file fieldname _ _ => fieldname

/-- A `multipart.Writer` over an `io.Writer`.  The `io.Writer` is seen through its
failures: `sinkError n` is the error of its `n`-th `Write` call, when that call fails. -/
structure MultipartWriter where
  sinkError : Nat → Option GoError
  writes : Nat
  parts : List FormPart
  closed : Bool
  boundary : String

/-- The function `multipart.NewWriter`. -/
def NewWriter (sinkError : Nat → Option GoError) (boundary : String) : MultipartWriter :=
  { sinkError := sinkError, writes := 0, parts := [], closed := false, boundary := boundary }

/-- One `Write` call on the underlying `io.Writer`. -/
def MultipartWriter.sinkWrite (w : MultipartWriter) : Except GoError MultipartWriter :=
  match w.sinkError w.writes with
  | some err => .error err
  | none => .ok { w with writes := w.writes + 1 }

/-- The method `Writer.WriteField`: `CreatePart` writes the part header, then the value
is written into the part. -/
def MultipartWriter.WriteField (w : MultipartWriter) (name value : String) :
    Except GoError MultipartWriter :=
  match w.sinkWrite with
  | .error err => .error err
  | .ok w1 =>
    match w1.sinkWrite with
    | .error err => .error err
    | .ok w2 => .ok { w2 with parts := w2.parts ++ [FormPart.field name value] }

/-- The method `Writer.CreateFormFile`: the header of a file part is written; the part is
then the current part, with no content yet. -/
def MultipartWriter.CreateFormFile (w : MultipartWriter) (fieldname filename : String) :
    Except GoError MultipartWriter :=
  match w.sinkWrite with
  | .error err => .error err
  | .ok w1 => .ok { w1 with parts := w1.parts ++ [FormPart.file fieldname filename []] }

/-- Bytes written into a part: they extend the content of a file part. -/
def FormPart.write : FormPart → Bytes → FormPart
  | .file fieldname filename content, d => .file fieldname filename (content ++ d)
  | .field name value, _ => .field name value

/-- Bytes written into the current part, which is the last one created. -/
def writeToLastPart : List FormPart → Bytes → List FormPart
  | [], _ => []
  | p :: rest, d => if rest.isEmpty then [p.write d] else p :: writeToLastPart rest d

/-- The call `io.Copy(part, file)`: what the reader delivers is written into the current
part; a write failure or, after it, the reader's own failure is returned. -/
def MultipartWriter.Copy (w : MultipartWriter) (file : Reader) : Except GoError MultipartWriter :=
  let written : Except GoError MultipartWriter :=
    if file.data = [] then .ok w
    else
      match w.sinkWrite with
      | .error err => .error err
      | .ok w1 => .ok { w1 with parts := writeToLastPart w1.parts file.data }
  match written with
  | .error err => .error err
  | .ok w1 =>
    match file.err with
    | some err => .error err
    | none => .ok w1

/-- The method `Writer.Close`, its error dropped: the closing boundary is written when the
underlying writer accepts it. -/
def MultipartWriter.Close (w : MultipartWriter) : MultipartWriter :=
  match w.sinkWrite with
  | .error _ => w
  | .ok w1 => { w1 with closed := true }

/-- The method `Writer.FormDataContentType`. -/
def MultipartWriter.FormDataContentType (w : MultipartWriter) : String :=
  "multipart/form-data; boundary=" ++ w.boundary

/-- The body of an outgoing HTTP request: none, a multipart form, or the JSON encoding of
an `ASRRequest`. -/
inductive RequestBody where
  | empty
  | form (parts : List FormPart) (closed : Bool)
  | json (req : ASRRequest)
  deriving DecidableEq, Repr

/-- An `http.Request` as the sources build it. -/
structure HTTPRequest where
  Method : String
  URL : String
  Header : List (String × String)
  Body : RequestBody
  deriving DecidableEq, Repr

/-- An `http.Response`: the status code and the body as read by `io.ReadAll`. -/
structure HTTPResponse where
  StatusCode : Int
  Body : String
  deriving DecidableEq, Repr

/-- The `http.Client` and the request constructor: `NewRequestError method url` is the
error of `http.NewRequestWithContext`, `Do` is the round trip. -/
structure HTTPClient where
  NewRequestError : String → String → Option GoError
  Do : HTTPRequest → Except GoError HTTPResponse

/-- The JSON decoders of `encoding/json` for the two response shapes. -/
structure JSONDecoder where
  DecodeUploadPolicy : String → Except GoError UploadPolicyData
  DecodeASRResponse : String → Except GoError ASRResponse

/-! ## pkg/client/dashscope.go -/

def ASREndpoint : String :=
  "https://dashscope.aliyuncs.com/api/v1/services/aigc/multimodal-generation/generation"

def UploadBaseURL : String := "https://dashscope.aliyuncs.com/api/v1/uploads"

/-- The key under which the file is stored: `fmt.Sprintf("%s/%s", policy.UploadDir, fileName)`. -/
def objectKey (policy : UploadPolicyData) (fileName : String) : String :=
  policy.UploadDir ++ "/" ++ fileName

/-- The slice `fields` of `createMultipartForm`. -/
def formFields (policy : UploadPolicyData) (fileName : String) : List (String × String) :=
  [("OSSAccessKeyId", policy.OSSAccessKeyID),
   ("Signature", policy.Signature),
   ("policy", policy.Policy),
   ("x-oss-object-acl", policy.XOSSObjectACL),
   ("x-oss-forbid-overwrite", policy.XOSSForbidOverwrite),
   ("key", objectKey policy fileName),
   ("success_action_status", "200")]

/-- The loop of `createMultipartForm` over `fields`. -/
def writeFields (w : MultipartWriter) : List (String × String) → Except GoError MultipartWriter
  | [] => .ok w
  | (name, value) :: rest =>
    match w.WriteField name value with
    | .error err => .error (Errorf ("failed to write field " ++ name) err)
    | .ok w1 => writeFields w1 rest

/-- The function `createMultipartForm`.  `writer` is the `io.Writer` it is given, seen
through its failures, and `boundary` the random boundary that `multipart.NewWriter` draws.
On success it returns the content type and the multipart writer as the deferred `Close`
leaves it. -/
def createMultipartForm (writer : Nat → Option GoError) (boundary : String)
    (policy : UploadPolicyData) (file : Reader) (fileName : String) :
    Except GoError (String × MultipartWriter) :=
  let multipartWriter := NewWriter writer boundary
  match writeFields multipartWriter (formFields policy fileName) with
  | .error err => .error err
  | .ok w1 =>
    match w1.CreateFormFile "file" fileName with
    | .error err => .error (Errorf "failed to create form file" err)
    | .ok part =>
      match part.Copy file with
      | .error err => .error (Errorf "failed to copy file content" err)
      | .ok w3 => .ok (w3.FormDataContentType, w3.Close)

/-- The `bytes.Buffer` that `UploadToOSS` writes the form into: its writes do not fail. -/
def bufferSink : Nat → Option GoError := fun _ => none

/-- The request `UploadToOSS` sends for a form written by `createMultipartForm`. -/
def uploadRequest (policy : UploadPolicyData) (contentType : String) (w : MultipartWriter) :
    HTTPRequest :=
  { Method := "POST", URL := policy.UploadHost,
    Header := [("Content-Type", contentType)],
    Body := RequestBody.form w.parts w.closed }

/-- The method `DashScopeClient.UploadToOSS`; `boundary` is the random boundary of the
form it writes. -/
def UploadToOSS (http : HTTPClient) (boundary : String) (policy : UploadPolicyData)
    (file : Reader) (fileName : String) : Except GoError String :=
  match createMultipartForm bufferSink boundary policy file fileName with
  | .error err => .error (.api (NewUploadError err.Error))
  | .ok (contentType, w) =>
    match http.NewRequestError "POST" policy.UploadHost with
    | some err => .error (.api (NewUploadError ("Failed to create upload request: " ++ err.Error)))
    | none =>
      match http.Do (uploadRequest policy contentType w) with
      | .error err => .error (.api (NewUploadError ("Upload failed: " ++ err.Error)))
      | .ok resp =>
        if resp.StatusCode ≠ StatusOK then
          .error (.api (NewUploadError
            ("Upload failed with status " ++ fmtInt resp.StatusCode ++ ": " ++ resp.Body)))
        else
          .ok ("oss://" ++ objectKey policy fileName)

/-- The method `DashScopeClient.GetUploadPolicy`. -/
def GetUploadPolicy (http : HTTPClient) (dec : JSONDecoder) (apiKey modelName : String) :
    Except GoError UploadPolicyData :=
  let url := UploadBaseURL ++ "?action=getPolicy&model=" ++ modelName
  match http.NewRequestError "GET" url with
  | some err => .error (.api (NewInternalServerError ("Failed to create request: " ++ err.Error)))
  | none =>
    match http.Do { Method := "GET", URL := url,
                    Header := [("Authorization", "Bearer " ++ apiKey),
                               ("Content-Type", "application/json")],
                    Body := RequestBody.empty } with
    | .error err => .error (.api (NewExternalServiceError "DashScope" err.Error))
    | .ok resp =>
      if resp.StatusCode ≠ StatusOK then
        .error (.api (NewExternalServiceError "DashScope"
          ("Status: " ++ fmtInt resp.StatusCode ++ ", Body: " ++ resp.Body)))
      else
        match dec.DecodeUploadPolicy resp.Body with
        | .error err =>
          .error (.api (NewInternalServerError ("Failed to decode response: " ++ err.Error)))
        | .ok data => .ok data

/-- The request value `asrRequest` that `CallASR` builds. -/
def buildASRRequest (audioURL model : String) (language : Option SupportedLanguage)
    (enableITN : Bool) (prompt : String) : ASRRequest :=
  let systemText := if prompt = "" then " " else prompt
  { Model := model,
    Input := { Messages :=
      [{ Role := "system", Content := [{ Text := systemText, Audio := "" }], Annotations := [] },
       { Role := "user", Content := [{ Text := "", Audio := audioURL }], Annotations := [] }] },
    Parameters := { ASROptions :=
      { EnableITN := enableITN,
        Language := match language with
          | some lang => lang
          | none => "" } } }

/-- The method `DashScopeClient.CallASR`.  `json.Marshal` cannot fail on an `ASRRequest`
(strings and a boolean only), so the request body is the request value itself. -/
def CallASR (http : HTTPClient) (dec : JSONDecoder) (baseURL apiKey audioURL model : String)
    (language : Option SupportedLanguage) (enableITN : Bool) (prompt : String) :
    Except GoError ASRResponse :=
  let asrRequest := buildASRRequest audioURL model language enableITN prompt
  match http.NewRequestError "POST" baseURL with
  | some err =>
    .error (.api (NewInternalServerError ("Failed to create ASR request: " ++ err.Error)))
  | none =>
    match http.Do { Method := "POST", URL := baseURL,
                    Header := [("Authorization", "Bearer " ++ apiKey),
                               ("Content-Type", "application/json"),
                               ("X-DashScope-OssResourceResolve", "enable")],
                    Body := RequestBody.json asrRequest } with
    | .error err => .error (.api (NewExternalServiceError "DashScope ASR" err.Error))
    | .ok resp =>
      if resp.StatusCode ≠ StatusOK then
        .error (.api (NewExternalServiceError "DashScope ASR"
          ("Status: " ++ fmtInt resp.StatusCode ++ ", Body: " ++ resp.Body)))
      else
        match dec.DecodeASRResponse resp.Body with
        | .error err =>
          .error (.api (NewInternalServerError ("Failed to decode ASR response: " ++ err.Error)))
        | .ok asrResponse => .ok asrResponse

/-! ## pkg/client/interfaces.go -/

/-- The interface `Uploader`. -/
structure Uploader where
  GetUploadPolicy : (apiKey modelName : String) → Except GoError UploadPolicyData
  UploadToOSS : (policy : UploadPolicyData) → (file : Reader) → (fileName : String) →
    Except GoError String

/-- The interface `ASRProvider`. -/
structure ASRProvider where
  CallASR : (apiKey audioURL model : String) → (language : Option SupportedLanguage) →
    (enableITN : Bool) → (prompt : String) → Except GoError (Option ASRResponse)

/-- The `DashScopeClient` as an `Uploader`. -/
def DashScopeClient.asUploader (http : HTTPClient) (dec : JSONDecoder) (boundary : String) :
    Uploader :=
  { GetUploadPolicy := GetUploadPolicy http dec,
    UploadToOSS := UploadToOSS http boundary }

/-- The `DashScopeClient` as an `ASRProvider`; `baseURL` is its field of that name. -/
def DashScopeClient.asASRProvider (http : HTTPClient) (dec : JSONDecoder) (baseURL : String) :
    ASRProvider :=
  { CallASR := fun apiKey audioURL model language enableITN prompt =>
      (CallASR http dec baseURL apiKey audioURL model language enableITN prompt).map some }

/-! ## internal/services/upload.go: orchestration -/

/-- The two methods of the injected client. -/
inductive ClientMethod where
  | GetUploadPolicy
  | UploadToOSS
  deriving DecidableEq, Repr

/-- A call made on the injected client, with its arguments. -/
inductive ClientCall where
  | GetUploadPolicy (apiKey modelName : String)
  | UploadToOSS (policy : UploadPolicyData) (file : Reader) (fileName : String)
  deriving DecidableEq, Repr

/-- The method a call is a call of. -/
def ClientCall.method : ClientCall → ClientMethod
  | .GetUploadPolicy _ _ => ClientMethod.GetUploadPolicy
  | .UploadToOSS _ _ _ => ClientMethod.UploadToOSS

/-- The file name `UploadFile` uploads under: the header's, or `upload_<unix seconds>`. -/
def uploadFileName (header : FileHeader) (now : Time) : String :=
  if header.Filename = "" then "upload_" ++ fmtInt now.Unix else header.Filename

/-- The method `UploadService.UploadFile`.  The result is paired with the calls made on
the injected client, in order.  `nowName` is the value of `time.Now()` where the file name
is made up, `nowExpire` its value where the expiry is computed. -/
def UploadFile (rt : GoRuntime) (cfg : UploadConfig) (client : Uploader) (nowName nowExpire : Time)
    (apiKey : String) (file : Reader) (header : FileHeader) (modelName : String)
    (validityHours : Int) : List ClientCall × Except GoError UploadResult :=
  match ValidateFile rt cfg header with
  | some err => ([], .error (.api err))
  | none =>
    let calls1 := [ClientCall.GetUploadPolicy apiKey modelName]
    match client.GetUploadPolicy apiKey modelName with
    | .error err => (calls1, .error (Errorf "failed to get upload policy" err))
    | .ok policy =>
      let fileName := uploadFileName header nowName
      let calls2 := calls1 ++ [ClientCall.UploadToOSS policy file fileName]
      match client.UploadToOSS policy file fileName with
      | .error err => (calls2, .error (Errorf "failed to upload file to OSS" err))
      | .ok ossURL =>
        let expireTime := nowExpire.Add (wrapInt64 (wrapInt64 validityHours * Hour))
        (calls2, .ok { OSSURL := ossURL, ExpireTime := expireTime, ModelUsed := modelName })

/-! ## internal/services/asr.go -/

/-- The method `ASRService.TranscribeAudio`. -/
def TranscribeAudio (client : ASRProvider) (apiKey audioURL model : String)
    (language : Option SupportedLanguage) (prompt : String) :
    Except GoError (Option ASRResponse) :=
  client.CallASR apiKey audioURL model language true prompt

/-- The method `ASRService.ConvertToOpenAIFormat`; `none` is the `nil` response. -/
def ConvertToOpenAIFormat (asrResponse : Option ASRResponse) (processingTimeMs : Int) :
    TranscriptionResponse :=
  let noChoice : TranscriptionResponse :=
    { Text := "", Task := "transcribe", Language := "unknown", Duration := Float64.zero,
      Words := [], UploadInfo := none, ProcessingTime := processingTimeMs }
  match asrResponse with
  | none => noChoice
  | some resp =>
    match resp.Output.Choices with
    | [] => noChoice
    | choice :: _ =>
      let detectedLanguage : String :=
        match choice.Message.Content with
        | [] => ""
        | content :: _ =>
          if content.Text.length > 0 then
            match choice.Message.Annotations with
            | [] => ""
            | annotation :: _ => annotation.Language
          else ""
      let duration : Float64 :=
        match resp.Usage.Seconds with
        | some seconds => seconds
        | none => Float64.zero
      let text : String :=
        match choice.Message.Content with
        | [] => ""
        | content :: _ => content.Text
      { Text := text, Task := "transcribe", Language := detectedLanguage, Duration := duration,
        Words := [], UploadInfo := none, ProcessingTime := processingTimeMs }

/-! ## internal/services/interfaces.go -/

/-- The interface `IUploadService`. -/
structure IUploadService where
  UploadFile : (apiKey : String) → (file : Reader) → (header : FileHeader) →
    (modelName : String) → (validityHours : Int) → Except GoError UploadResult

/-- The interface `IASRService`, with the methods the handler calls. -/
structure IASRService where
  TranscribeAudio : (apiKey audioURL model : String) → (language : Option SupportedLanguage) →
    (prompt : String) → Except GoError (Option ASRResponse)
  ConvertToOpenAIFormat : Option ASRResponse → Int → TranscriptionResponse

/-- The `UploadService` as an `IUploadService`. -/
def UploadService.asService (rt : GoRuntime) (cfg : UploadConfig) (client : Uploader)
    (nowName nowExpire : Time) : IUploadService :=
  { UploadFile := fun apiKey file header modelName validityHours =>
      (UploadFile rt cfg client nowName nowExpire apiKey file header modelName validityHours).2 }

/-- The `ASRService` as an `IASRService`. -/
def ASRService.asService (client : ASRProvider) : IASRService :=
  { TranscribeAudio := TranscribeAudio client,
    ConvertToOpenAIFormat := ConvertToOpenAIFormat }

/-! ## internal/handlers/transcription.go -/

/-- The value stored in the gin context under `api_key`: a string, or a value of another type. -/
inductive ContextValue where
  | str (s : String)
  | notString
  deriving DecidableEq, Repr

/-- The parts of the `gin.Context` the handler reads: the result of `FormFile("file")`
(`none` when it fails), the value of `c.Get("api_key")` (`none` when absent), and
`PostForm` (the empty string for an absent field). -/
structure GinRequest where
  FormFile : Option (Reader × FileHeader)
  APIKey : Option ContextValue
  PostForm : String → String

/-- The JSON body the handler writes. -/
inductive ResponseBody where
  | error (e : ErrorResponse)
  | transcription (r : TranscriptionResponse)
  deriving DecidableEq, Repr

/-- The response written by `c.JSON`. -/
structure GinResponse where
  Status : Int
  Body : ResponseBody
  deriving DecidableEq, Repr

/-- A call the handler makes on one of its two services. -/
inductive ServiceCall where
  | UploadFile (apiKey : String) (header : FileHeader) (modelName : String) (validityHours : Int)
  | TranscribeAudio (apiKey audioURL model : String) (language : Option SupportedLanguage)
      (prompt : String)
  | ConvertToOpenAIFormat (processingTimeMs : Int)
  deriving DecidableEq, Repr

/-- The call `c.JSON(status, models.ErrorResponse{Error: message})`. -/
def errorJSON (status : Int) (message : String) : GinResponse :=
  { Status := status, Body := ResponseBody.error { Error := message, Code := 0 } }

/-- The method `TranscriptionHandler.Transcription`.  The response is paired with the
calls made on the two services, in order.  `elapsed` is the `time.Duration` that
`time.Since(startTime)` returns. -/
def Transcription (rt : GoRuntime) (uploadService : IUploadService) (asrService : IASRService)
    (elapsed : Int) (c : GinRequest) : List ServiceCall × GinResponse :=
  match c.FormFile with
  | none => ([], errorJSON StatusBadRequest "Failed to get file from form")
  | some (file, header) =>
    match c.APIKey with
    | none => ([], errorJSON StatusUnauthorized "Missing API key in context")
    | some ContextValue.notString => ([], errorJSON StatusInternalServerError "Invalid API key type")
    | some (ContextValue.str apiKeyStr) =>
      let model := c.PostForm "model"
      let language := c.PostForm "language"
      let prompt := c.PostForm "prompt"
      if model = "" then ([], errorJSON StatusBadRequest "model parameter is required")
      else if language ≠ "" ∧ !IsValidLanguage language then
        ([], errorJSON StatusBadRequest "Unsupported language")
      else
        let languagePtr : Option SupportedLanguage := if language ≠ "" then some language else none
        let calls1 := [ServiceCall.UploadFile apiKeyStr header model 48]
        match uploadService.UploadFile apiKeyStr file header model 48 with
        | .error _ => (calls1, errorJSON StatusInternalServerError "File upload failed")
        | .ok uploadResult =>
          let calls2 := calls1 ++
            [ServiceCall.TranscribeAudio apiKeyStr uploadResult.OSSURL model languagePtr prompt]
          match asrService.TranscribeAudio apiKeyStr uploadResult.OSSURL model languagePtr prompt with
          | .error _ => (calls2, errorJSON StatusInternalServerError "Transcription failed")
          | .ok asrResponse =>
            let processingTimeMs := Milliseconds elapsed
            let response := asrService.ConvertToOpenAIFormat asrResponse processingTimeMs
            let uploadInfo : UploadInfo :=
              { OSSURL := uploadResult.OSSURL,
                ExpireTime := rt.FormatRFC3339 uploadResult.ExpireTime,
                ModelUsed := uploadResult.ModelUsed }
            (calls2 ++ [ServiceCall.ConvertToOpenAIFormat processingTimeMs],
             { Status := StatusOK,
               Body := ResponseBody.transcription
                 { response with UploadInfo := some uploadInfo,
                                 ProcessingTime := processingTimeMs } })

/-! ## Sample inputs -/

/-- A runtime with identity case tables, no known extension and `/` as path separator. -/
def sampleRuntime : GoRuntime :=
  { FormatRFC3339 := fun t => fmtInt t.UnixNano,
    SimpleFold := fun c => c,
    UnicodeToLower := fun c => c,
    TypeByExtension := fun _ => "",
    IsPathSeparator := fun c => c == '/' }

/-- A file header with the given declared content type, name and size. -/
def sampleHeader (contentType filename : String) (size : Int) : FileHeader :=
  { Filename := filename, Header := [("Content-Type", [contentType])], Size := size }

/-- An upload policy with upload directory `ups`. -/
def samplePolicy : UploadPolicyData :=
  { UploadDir := "ups", UploadHost := "https://bucket.example", OSSAccessKeyID := "id",
    Signature := "sig", Policy := "pol", XOSSObjectACL := "private",
    XOSSForbidOverwrite := "true" }

/-- An HTTP client whose every round trip answers with the given status and an empty body. -/
def statusClient (status : Int) : HTTPClient :=
  { NewRequestError := fun _ _ => none,
    Do := fun _ => .ok { StatusCode := status, Body := "" } }

/-- A client whose policy fetch fails with the given error. -/
def failingPolicyClient (err : GoError) : Uploader :=
  { GetUploadPolicy := fun _ _ => .error err,
    UploadToOSS := fun _ _ _ => .ok "" }

/-- A client whose policy fetch answers with `samplePolicy` and whose upload goes through
`UploadToOSS` over an object store answering 200. -/
def okUploader : Uploader :=
  { GetUploadPolicy := fun _ _ => .ok samplePolicy,
    UploadToOSS := UploadToOSS (statusClient 200) "boundary" }

/-- An ASR provider whose call fails with the given error. -/
def failingASRProvider (err : GoError) : ASRProvider :=
  { CallASR := fun _ _ _ _ _ _ => .error err }

/-- A request carrying a file, the API key `k`, the model `qwen3-asr` and the given
language field. -/
def sampleRequest (header : FileHeader) (language : String) : GinRequest :=
  { FormFile := some ({ data := [1, 2, 3], err := none }, header),
    APIKey := some (ContextValue.str "k"),
    PostForm := fun key =>
      if key = "model" then "qwen3-asr" else if key = "language" then language else "" }

/-- The upload configuration of the samples: at most 100 bytes, `audio/wav` only. -/
def sampleConfig : UploadConfig := { MaxFileSize := 100, AllowedTypes := ["audio/wav"] }

/-- The ASCII lower-casing of a code point: `A` to `Z` move to `a` to `z`. -/
def asciiLowerNat (n : Nat) : Nat := if 65 ≤ n ∧ n ≤ 90 then n + 32 else n

/-! ## internal/models/types.go and internal/services/asr.go: the verbose response -/

structure UsageInfo where
  InputTokens : Int
  OutputTokens : Int
  AudioSeconds : Float64
  deriving DecidableEq, Repr

structure ASRMetadata where
  DetectedLanguage : String
  Emotion : String
  FinishReason : String
  Usage : UsageInfo
  deriving DecidableEq, Repr

/-- The struct `VerboseTranscriptionResponse`, which embeds `TranscriptionResponse`. -/
structure VerboseTranscriptionResponse extends TranscriptionResponse where
  RequestID : String
  Timestamp : String
  ASRMetadata : Option ASRMetadata
  deriving DecidableEq, Repr

/-- The method `ASRService.convertUsageInfo`. -/
def convertUsageInfo (usage : ASRUsage) : UsageInfo :=
  let inputTokens : Int :=
    match usage.InputTokensDetails with
    | some details => details.TextTokens
    | none => 0
  let audioSeconds : Float64 :=
    match usage.Seconds with
    | some seconds => seconds
    | none => Float64.zero
  { InputTokens := inputTokens,
    OutputTokens := usage.OutputTokensDetails.TextTokens,
    AudioSeconds := audioSeconds }

/-- The method `ASRService.CreateVerboseResponse`.  It reads `asrResponse.Request` without a
`nil` test, so a `nil` response makes it panic: the result is then `none`. -/
def CreateVerboseResponse (rt : GoRuntime) (asrResponse : Option ASRResponse)
    (processingTimeMs : Int) (uploadInfo : Option UploadResult) :
    Option VerboseTranscriptionResponse :=
  let baseResponse := ConvertToOpenAIFormat asrResponse processingTimeMs
  match asrResponse with
  | none => none
  | some resp =>
    let verboseResponse : VerboseTranscriptionResponse :=
      { toTranscriptionResponse := baseResponse,
        RequestID := resp.Request,
        Timestamp := "",
        ASRMetadata := none }
    let verboseResponse : VerboseTranscriptionResponse :=
      match uploadInfo with
      | some info =>
        { verboseResponse with
          UploadInfo := some { OSSURL := info.OSSURL,
                               ExpireTime := rt.FormatRFC3339 info.ExpireTime,
                               ModelUsed := info.ModelUsed } }
      | none => verboseResponse
    match resp.Output.Choices with
    | [] => some verboseResponse
    | choice :: _ =>
      match choice.Message.Annotations with
      | [] => some verboseResponse
      | annotation :: _ =>
        some { verboseResponse with
               ASRMetadata := some { DetectedLanguage := annotation.Language,
                                     Emotion := annotation.Emotion,
                                     FinishReason := choice.FinishReason,
                                     Usage := convertUsageInfo resp.Usage } }

/-! ## Sample inputs for the response translation and the clients -/

/-- A usage block with every counter present. -/
def sampleUsage : ASRUsage :=
  { InputTokensDetails := some { TextTokens := 7 },
    OutputTokensDetails := { TextTokens := 9 },
    Seconds := some { bits := 4611686018427387904 } }

/-- A usage block with the optional counters absent. -/
def bareUsage : ASRUsage :=
  { InputTokensDetails := none, OutputTokensDetails := { TextTokens := 0 }, Seconds := none }

/-- A response of one choice with the given content items and annotations. -/
def sampleResponse (content : List ASRContent) (annotations : List ASRAnnotation) : ASRResponse :=
  { Output := { Choices := [{ FinishReason := "stop",
                               Message := { Role := "assistant", Content := content,
                                            Annotations := annotations } }] },
    Usage := sampleUsage,
    Request := "req-1" }

/-- The pattern `upload_<digits>` as the specification words it: the text `upload_`, then
one or more decimal digits and nothing else. -/
def matchesUploadPattern (s : String) : Bool :=
  decide (s.toList.take 7 = "upload_".toList) &&
    !(s.toList.drop 7).isEmpty && (s.toList.drop 7).all Char.isDigit

/-- A runtime like `sampleRuntime` whose MIME table knows the extension `.wav`. -/
def wavRuntime : GoRuntime :=
  { sampleRuntime with
    TypeByExtension := fun ext => if ext = ".wav" then "audio/wav" else "" }

/-- A decoder that accepts every body. -/
def sampleDecoder : JSONDecoder :=
  { DecodeUploadPolicy := fun _ => .ok samplePolicy,
    DecodeASRResponse := fun _ => .ok (sampleResponse [{ Text := "hello world", Audio := "" }] []) }

/-- An ASR provider whose call answers with the given response. -/
def okASRProvider (resp : ASRResponse) : ASRProvider :=
  { CallASR := fun _ _ _ _ _ _ => .ok (some resp) }

/-! ## The requests the clients send -/

/-- The request `GetUploadPolicy` sends. -/
def policyRequest (apiKey modelName : String) : HTTPRequest :=
  { Method := "GET", URL := UploadBaseURL ++ "?action=getPolicy&model=" ++ modelName,
    Header := [("Authorization", "Bearer " ++ apiKey), ("Content-Type", "application/json")],
    Body := RequestBody.empty }

/-- The request `CallASR` sends for the request value `asrRequest`. -/
def asrHTTPRequest (baseURL apiKey : String) (asrRequest : ASRRequest) : HTTPRequest :=
  { Method := "POST", URL := baseURL,
    Header := [("Authorization", "Bearer " ++ apiKey), ("Content-Type", "application/json"),
               ("X-DashScope-OssResourceResolve", "enable")],
    Body := RequestBody.json asrRequest }

/-- An HTTP client that answers the one request `expected` with status 200 and the body
`body`, and fails on every other request. -/
def onlyClient (expected : HTTPRequest) (body : String) : HTTPClient :=
  { NewRequestError := fun _ _ => none,
    Do := fun req =>
      if req = expected then .ok { StatusCode := 200, Body := body }
      else .error (.other "unexpected request") }

/-- The multipart family as the specification words it: the type part `multipart/` at the
beginning of the content type, recognised without regard to letter case, the way the
allow-list match compares. -/
def isMultipartType (rt : GoRuntime) (contentType : String) : Bool :=
  EqualFold rt (String.mk (contentType.toList.take 10)) "multipart/"

/-! ## Case folding on ASCII -/

/-- Two characters with the same code point are the same character. -/
theorem char_eq_of_toNat_eq (a b : Char) (h : a.toNat = b.toNat) : a = b := by
  apply Char.ext
  apply UInt32.ext
  exact h

/-- On two ASCII runes the fold test is equality of their lower-case forms; the Unicode
table is not consulted. -/
theorem runeEqualFold_ascii (rt : GoRuntime) (sr tr : Char) (hs : sr.toNat < 0x80)
    (ht : tr.toNat < 0x80) :
    runeEqualFold rt sr tr = true ↔ asciiLowerNat sr.toNat = asciiLowerNat tr.toNat := by
  have hA : 'A'.toNat = 65 := rfl
  have hZ : 'Z'.toNat = 90 := rfl
  have ha : 'a'.toNat = 97 := rfl
  unfold runeEqualFold asciiLowerNat isUpperASCII
  by_cases h : tr = sr
  · subst h
    simp
  · have hne : tr.toNat ≠ sr.toNat := fun hh => h (char_eq_of_toNat_eq _ _ hh)
    rw [if_neg h]
    by_cases hlt : tr.toNat < sr.toNat
    · simp only [hlt, if_true, hs, hA, hZ, ha, Bool.and_eq_true, decide_eq_true_eq]
      split <;> split <;> omega
    · simp only [hlt, if_false, ht, if_true, hA, hZ, ha, Bool.and_eq_true, decide_eq_true_eq]
      split <;> split <;> omega

/-- On ASCII rune sequences the fold loop is equality of the lower-cased sequences. -/
theorem equalFoldRunes_ascii (rt : GoRuntime) (s t : List Char)
    (hs : ∀ c ∈ s, c.toNat < 0x80) (ht : ∀ c ∈ t, c.toNat < 0x80) :
    equalFoldRunes rt s t = true ↔
      s.map (fun c => asciiLowerNat c.toNat) = t.map (fun c => asciiLowerNat c.toNat) := by
  induction s generalizing t with
  | nil =>
    cases t with
    | nil => simp [equalFoldRunes]
    | cons b bs => simp [equalFoldRunes]
  | cons a as ih =>
    cases t with
    | nil => simp [equalFoldRunes]
    | cons b bs =>
      have ha : a.toNat < 0x80 := hs a (List.mem_cons_self a as)
      have hb : b.toNat < 0x80 := ht b (List.mem_cons_self b bs)
      have has : ∀ c ∈ as, c.toNat < 0x80 := fun c hc => hs c (List.mem_cons_of_mem a hc)
      have hbs : ∀ c ∈ bs, c.toNat < 0x80 := fun c hc => ht c (List.mem_cons_of_mem b hc)
      simp only [equalFoldRunes, Bool.and_eq_true, List.map_cons, List.cons.injEq]
      rw [runeEqualFold_ascii rt a b ha hb, ih bs has hbs]

/-- On ASCII strings `EqualFold` is equality up to the case of the letters `A` to `Z`,
for every Unicode table. -/
theorem equalFold_ascii (rt : GoRuntime) (s t : String)
    (hs : ∀ c ∈ s.toList, c.toNat < 0x80) (ht : ∀ c ∈ t.toList, c.toNat < 0x80) :
    EqualFold rt s t = true ↔
      s.toList.map (fun c => asciiLowerNat c.toNat) =
        t.toList.map (fun c => asciiLowerNat c.toNat) :=
  equalFoldRunes_ascii rt s.toList t.toList hs ht

/-! ## Validation -/

/-- A file above the size limit gets the file-too-large error, whatever its type and name. -/
theorem validateFile_of_size_gt (rt : GoRuntime) (cfg : UploadConfig) (header : FileHeader)
    (h : header.Size > cfg.MaxFileSize) :
    ValidateFile rt cfg header = some (NewFileSizeError cfg.MaxFileSize) := by
  simp [ValidateFile, h]

/-- Within the size limit the outcome is decided by the resolved content type alone. -/
theorem validateFile_of_size_le (rt : GoRuntime) (cfg : UploadConfig) (header : FileHeader)
    (h : header.Size ≤ cfg.MaxFileSize) :
    ValidateFile rt cfg header =
      if resolveContentType rt header ≠ "" ∧
          isContentTypeAllowed rt cfg (resolveContentType rt header) = true
      then none else some (NewFileTypeError cfg.AllowedTypes) := by
  have hs : ¬ header.Size > cfg.MaxFileSize := not_lt.mpr h
  unfold ValidateFile
  rw [if_neg hs]
  by_cases h1 : resolveContentType rt header = ""
  · simp [h1]
  · by_cases h2 : isContentTypeAllowed rt cfg (resolveContentType rt header) = true
    · simp [h1, h2]
    · simp [h1, h2]

/-- The two validation messages differ, whatever the size limit printed in the first. -/
theorem fileType_message_ne_fileSize_message (n : String) :
    "Unsupported file type" ≠ "File too large. Maximum size is " ++ n ++ " bytes" := by
  intro h
  have h2 := congrArg String.data h
  simp [String.data_append] at h2

/-- C1. `ValidateFile` returns the file-too-large error (status 400, message naming
`MaxFileSize` in bytes) if and only if the declared size is strictly greater than
`MaxFileSize`, for every configuration, content type and file name. -/
theorem validateFile_fileTooLarge_iff (rt : GoRuntime) (cfg : UploadConfig) (header : FileHeader) :
    (∃ e : APIError, ValidateFile rt cfg header = some e ∧ e.HTTPStatus = 400 ∧
        e.Message = "File too large. Maximum size is " ++ fmtInt cfg.MaxFileSize ++ " bytes") ↔
      header.Size > cfg.MaxFileSize := by
  constructor
  · rintro ⟨e, he, -, hm⟩
    by_contra hgt
    rw [validateFile_of_size_le rt cfg header (not_lt.mp hgt)] at he
    split at he
    · exact Option.noConfusion he
    · have he2 : NewFileTypeError cfg.AllowedTypes = e := Option.some.inj he
      rw [← he2] at hm
      exact fileType_message_ne_fileSize_message _ hm
  · intro hgt
    exact ⟨NewFileSizeError cfg.MaxFileSize, validateFile_of_size_gt rt cfg header hgt, rfl, rfl⟩

/-- The allow-list test, spelled out: no `multipart/` prefix and a case-folded match with
some entry of the allow-list. -/
theorem isContentTypeAllowed_iff (rt : GoRuntime) (cfg : UploadConfig) (contentType : String) :
    isContentTypeAllowed rt cfg contentType = true ↔
      HasPrefix contentType "multipart/" = false ∧
        ∃ a ∈ cfg.AllowedTypes, EqualFold rt contentType a = true := by
  unfold isContentTypeAllowed
  by_cases hp : HasPrefix contentType "multipart/" = true
  · simp [hp]
  · simp [hp, List.any_eq_true]

/-- What the code does within the size limit: `ValidateFile` returns ok exactly when the
resolved content type is non-empty, does not begin with the lower-case text `multipart/`,
and matches an entry of `AllowedTypes` under case folding; in every other case it returns
the unsupported-type error, whose status is 400 and whose message is "Unsupported file
type". -/
theorem validateFile_ok_iff (rt : GoRuntime) (cfg : UploadConfig) (header : FileHeader)
    (h : header.Size ≤ cfg.MaxFileSize) :
    (ValidateFile rt cfg header = none ↔
        resolveContentType rt header ≠ "" ∧
        HasPrefix (resolveContentType rt header) "multipart/" = false ∧
        ∃ a ∈ cfg.AllowedTypes, EqualFold rt (resolveContentType rt header) a = true) ∧
      (ValidateFile rt cfg header ≠ none →
        ValidateFile rt cfg header = some (NewFileTypeError cfg.AllowedTypes)) ∧
      (NewFileTypeError cfg.AllowedTypes).HTTPStatus = 400 ∧
      (NewFileTypeError cfg.AllowedTypes).Message = "Unsupported file type" := by
  have hv := validateFile_of_size_le rt cfg header h
  refine ⟨?_, ?_, rfl, rfl⟩
  · rw [hv, ← isContentTypeAllowed_iff]
    split
    · rename_i hc
      simp only [true_iff]
      exact hc
    · rename_i hc
      constructor
      · intro hn
        exact Option.noConfusion hn
      · intro hn
        exact absurd hn hc
  · intro hne
    rw [hv] at hne ⊢
    split
    · rename_i hc
      rw [if_pos hc] at hne
      exact absurd rfl hne
    · rfl

/-- The type `AUDIO/WAV` is accepted against the allow-list entry `audio/wav`. -/
theorem validateFile_ok_iff_witness :
    (5 : Int) ≤ 100 ∧
      ValidateFile sampleRuntime { MaxFileSize := 100, AllowedTypes := ["audio/wav"] }
        (sampleHeader "AUDIO/WAV" "a.wav" 5) = none :=
  ⟨by decide,
   (validateFile_ok_iff sampleRuntime { MaxFileSize := 100, AllowedTypes := ["audio/wav"] }
      (sampleHeader "AUDIO/WAV" "a.wav" 5) (by decide)).1.mpr
     ⟨by decide, by decide, "audio/wav", by simp, by decide⟩⟩

/-- A rune sequence folds to itself, for every Unicode table. -/
theorem equalFoldRunes_self (rt : GoRuntime) (l : List Char) : equalFoldRunes rt l l = true := by
  induction l with
  | nil => rfl
  | cons c cs ih =>
    have hc : runeEqualFold rt c c = true := by
      unfold runeEqualFold
      rw [if_pos rfl]
    simp only [equalFoldRunes, hc, ih, Bool.and_self]

/-- A content type with the lower-case prefix `multipart/` is a multipart type. -/
theorem isMultipartType_of_hasPrefix (rt : GoRuntime) (contentType : String)
    (h : HasPrefix contentType "multipart/" = true) : isMultipartType rt contentType = true := by
  unfold HasPrefix at h
  have hp : "multipart/".toList <+: contentType.toList := List.isPrefixOf_iff_prefix.mp h
  have ht : "multipart/".toList = contentType.toList.take 10 := List.prefix_iff_eq_take.mp hp
  unfold isMultipartType EqualFold
  show equalFoldRunes rt (contentType.toList.take 10) "multipart/".toList = true
  rw [← ht]
  exact equalFoldRunes_self rt _

/-- Away from the multipart types that are not spelled in lower case, the code does what
C2 says: within the size limit `ValidateFile` returns ok exactly when the resolved content
type is non-empty, is not a multipart type and matches an allow-list entry under case
folding. -/
theorem validateFile_ok_iff_of_lowercase_multipart (rt : GoRuntime) (cfg : UploadConfig)
    (header : FileHeader) (h : header.Size ≤ cfg.MaxFileSize)
    (hlow : isMultipartType rt (resolveContentType rt header) = true →
      HasPrefix (resolveContentType rt header) "multipart/" = true) :
    ValidateFile rt cfg header = none ↔
      resolveContentType rt header ≠ "" ∧
      isMultipartType rt (resolveContentType rt header) = false ∧
      ∃ a ∈ cfg.AllowedTypes, EqualFold rt (resolveContentType rt header) a = true := by
  rw [(validateFile_ok_iff rt cfg header h).1]
  have hiff : HasPrefix (resolveContentType rt header) "multipart/" = false ↔
      isMultipartType rt (resolveContentType rt header) = false := by
    constructor
    · intro hp
      cases hm : isMultipartType rt (resolveContentType rt header) with
      | false => rfl
      | true =>
        rw [hlow hm] at hp
        exact Bool.noConfusion hp
    · intro hm
      cases hp : HasPrefix (resolveContentType rt header) "multipart/" with
      | false => rfl
      | true =>
        rw [isMultipartType_of_hasPrefix rt _ hp] at hm
        exact Bool.noConfusion hm
  rw [hiff]

/-- Every content type that begins with the lower-case `multipart/` is rejected within the
size limit, whatever the allow-list holds. -/
theorem validateFile_rejects_multipart (rt : GoRuntime) (cfg : UploadConfig)
    (header : FileHeader) (h : header.Size ≤ cfg.MaxFileSize)
    (hm : HasPrefix (resolveContentType rt header) "multipart/" = true) :
    ValidateFile rt cfg header = some (NewFileTypeError cfg.AllowedTypes) := by
  rw [validateFile_of_size_le rt cfg header h]
  have hna : ¬ isContentTypeAllowed rt cfg (resolveContentType rt header) = true := by
    rw [isContentTypeAllowed_iff]
    rintro ⟨hp, -⟩
    rw [hm] at hp
    exact Bool.noConfusion hp
  rw [if_neg (fun hc => hna hc.2)]

/-- C3, the code at a capitalised multipart type.  With `multipart/form-data` in the
allow-list, the declared type `Multipart/Form-Data` is not recognised by the prefix test,
matches the entry under case folding, and is accepted; the lower-case spelling is rejected. -/
theorem validateFile_accepts_capitalised_multipart :
    HasPrefix "Multipart/Form-Data" "multipart/" = false ∧
      ValidateFile sampleRuntime { MaxFileSize := 100, AllowedTypes := ["multipart/form-data"] }
        (sampleHeader "Multipart/Form-Data" "a.bin" 5) = none ∧
      ValidateFile sampleRuntime { MaxFileSize := 100, AllowedTypes := ["multipart/form-data"] }
        (sampleHeader "multipart/form-data" "a.bin" 5) =
          some (NewFileTypeError ["multipart/form-data"]) := by
  refine ⟨by decide, by decide, by decide⟩

/-- C2, the code at a multipart type written in capitals.  Within the size limit the
resolved type `MULTIPART/MIXED` is a multipart type, yet it matches the allow-list entry
`multipart/mixed` under case folding and `ValidateFile` returns ok, where the unsupported-type
error is due; the lower-case spelling of the same type gets that error. -/
theorem validateFile_ok_for_multipart_type :
    (sampleHeader "MULTIPART/MIXED" "a.bin" 5).Size ≤ 100 ∧
      resolveContentType sampleRuntime (sampleHeader "MULTIPART/MIXED" "a.bin" 5) =
        "MULTIPART/MIXED" ∧
      isMultipartType sampleRuntime "MULTIPART/MIXED" = true ∧
      HasPrefix "MULTIPART/MIXED" "multipart/" = false ∧
      ValidateFile sampleRuntime
        { MaxFileSize := 100, AllowedTypes := ["audio/wav", "multipart/mixed"] }
        (sampleHeader "MULTIPART/MIXED" "a.bin" 5) = none ∧
      ValidateFile sampleRuntime
        { MaxFileSize := 100, AllowedTypes := ["audio/wav", "multipart/mixed"] }
        (sampleHeader "multipart/mixed" "a.bin" 5) =
          some (NewFileTypeError ["audio/wav", "multipart/mixed"]) := by
  refine ⟨by decide, by decide, by decide, by decide, by decide, by decide⟩

/-! ## Upload orchestration -/

/-- C4. The calls `UploadFile` makes on its client are a beginning of
`[GetUploadPolicy, UploadToOSS]`: none when `ValidateFile` fails, in which case the
validation error itself is returned, and the policy fetch alone when that fetch fails, in
which case the wrapped fetch error is returned; in both cases no `UploadResult` comes back. -/
theorem uploadFile_calls (rt : GoRuntime) (cfg : UploadConfig) (client : Uploader)
    (nowName nowExpire : Time) (apiKey : String) (file : Reader) (header : FileHeader)
    (modelName : String) (validityHours : Int) :
    ((UploadFile rt cfg client nowName nowExpire apiKey file header modelName validityHours).1.map
        ClientCall.method <+: [ClientMethod.GetUploadPolicy, ClientMethod.UploadToOSS]) ∧
      (∀ e, ValidateFile rt cfg header = some e →
        UploadFile rt cfg client nowName nowExpire apiKey file header modelName validityHours =
          ([], .error (.api e))) ∧
      (∀ err, ValidateFile rt cfg header = none →
        client.GetUploadPolicy apiKey modelName = .error err →
        UploadFile rt cfg client nowName nowExpire apiKey file header modelName validityHours =
          ([ClientCall.GetUploadPolicy apiKey modelName],
            .error (Errorf "failed to get upload policy" err))) := by
  refine ⟨?_, ?_, ?_⟩
  · unfold UploadFile
    cases hv : ValidateFile rt cfg header with
    | some e => exact List.nil_prefix
    | none =>
      cases hp : client.GetUploadPolicy apiKey modelName with
      | error err => exact ⟨[ClientMethod.UploadToOSS], rfl⟩
      | ok policy =>
        dsimp only
        split
        · exact List.prefix_refl _
        · exact List.prefix_refl _
  · intro e hv
    simp [UploadFile, hv]
  · intro err hv hp
    simp [UploadFile, hv, hp]

/-- Both failure cases of C4 at concrete inputs: an oversized file makes no call, a failing
policy fetch (the endpoint answering 403) makes exactly one. -/
theorem uploadFile_calls_witness :
    UploadFile sampleRuntime { MaxFileSize := 100, AllowedTypes := ["audio/wav"] }
        (failingPolicyClient (.api (NewExternalServiceError "DashScope" "Status: 403, Body: ")))
        { UnixNano := 0 } { UnixNano := 0 } "k" { data := [], err := none }
        (sampleHeader "audio/wav" "a.wav" 101) "m" 48 =
        ([], .error (.api (NewFileSizeError 100))) ∧
      UploadFile sampleRuntime { MaxFileSize := 100, AllowedTypes := ["audio/wav"] }
        (failingPolicyClient (.api (NewExternalServiceError "DashScope" "Status: 403, Body: ")))
        { UnixNano := 0 } { UnixNano := 0 } "k" { data := [], err := none }
        (sampleHeader "audio/wav" "a.wav" 5) "m" 48 =
        ([ClientCall.GetUploadPolicy "k" "m"],
          .error (Errorf "failed to get upload policy"
            (.api (NewExternalServiceError "DashScope" "Status: 403, Body: ")))) :=
  ⟨(uploadFile_calls sampleRuntime { MaxFileSize := 100, AllowedTypes := ["audio/wav"] }
      (failingPolicyClient (.api (NewExternalServiceError "DashScope" "Status: 403, Body: ")))
      { UnixNano := 0 } { UnixNano := 0 } "k" { data := [], err := none }
      (sampleHeader "audio/wav" "a.wav" 101) "m" 48).2.1 (NewFileSizeError 100) (by decide),
   (uploadFile_calls sampleRuntime { MaxFileSize := 100, AllowedTypes := ["audio/wav"] }
      (failingPolicyClient (.api (NewExternalServiceError "DashScope" "Status: 403, Body: ")))
      { UnixNano := 0 } { UnixNano := 0 } "k" { data := [], err := none }
      (sampleHeader "audio/wav" "a.wav" 5) "m" 48).2.2 _ (by decide) rfl⟩

/-! ## Supported languages -/

/-- The loop of `IsValidLanguage` is membership in `SupportedLanguages`. -/
theorem mem_supportedLanguages_iff (s : String) :
    IsValidLanguage s = true ↔ s ∈ SupportedLanguages := by
  unfold IsValidLanguage
  rw [List.any_eq_true]
  constructor
  · rintro ⟨x, hx, hxs⟩
    have hxs2 : x = s := of_decide_eq_true hxs
    rw [← hxs2]
    exact hx
  · intro hs
    exact ⟨s, hs, decide_eq_true rfl⟩

/-- C6. `IsValidLanguage s` holds exactly for the 18 codes, compared as they are written
(the empty string and `ZH` are not valid), and `SupportedLanguages` is the list of these 18
codes, without duplicates. -/
theorem isValidLanguage_iff :
    (∀ s : String, IsValidLanguage s = true ↔
        s ∈ ["zh", "yue", "en", "ja", "de", "ko", "ru", "fr", "pt", "ar", "it", "es", "hi", "id",
             "th", "tr", "uk", "vi"]) ∧
      SupportedLanguages =
        ["zh", "yue", "en", "ja", "de", "ko", "ru", "fr", "pt", "ar", "it", "es", "hi", "id",
         "th", "tr", "uk", "vi"] ∧
      SupportedLanguages.Nodup ∧
      SupportedLanguages.length = 18 ∧
      IsValidLanguage "" = false ∧
      IsValidLanguage "ZH" = false := by
  refine ⟨fun s => ?_, rfl, by decide, rfl, by decide, by decide⟩
  rw [mem_supportedLanguages_iff]
  exact Iff.rfl

/-! ## The handler -/

/-- C5. A request with a file, an API key and a non-empty model whose language field is
non-empty and outside `SupportedLanguages` is answered with status 400 and the error body
"Unsupported language", and no call is made on the upload service or the ASR service. -/
theorem transcription_unsupported_language (rt : GoRuntime) (uploadService : IUploadService)
    (asrService : IASRService) (elapsed : Int) (c : GinRequest) (file : Reader)
    (header : FileHeader) (apiKeyStr : String)
    (hfile : c.FormFile = some (file, header))
    (hkey : c.APIKey = some (ContextValue.str apiKeyStr))
    (hmodel : c.PostForm "model" ≠ "")
    (hlang : c.PostForm "language" ≠ "")
    (hout : c.PostForm "language" ∉ SupportedLanguages) :
    Transcription rt uploadService asrService elapsed c =
      ([], { Status := 400,
             Body := ResponseBody.error { Error := "Unsupported language", Code := 0 } }) := by
  have hinv : IsValidLanguage (c.PostForm "language") = false := by
    rw [← Bool.not_eq_true, mem_supportedLanguages_iff]
    exact hout
  simp [Transcription, hfile, hkey, hmodel, hlang, hinv, errorJSON, StatusBadRequest]

/-- The language `xx` is rejected before any service is called. -/
theorem transcription_unsupported_language_witness :
    (Transcription sampleRuntime
        (UploadService.asService sampleRuntime sampleConfig okUploader { UnixNano := 0 }
          { UnixNano := 0 })
        (ASRService.asService (failingASRProvider (.other "unreachable"))) 0
        (sampleRequest (sampleHeader "audio/wav" "a.wav" 5) "xx")) =
      ([], { Status := 400,
             Body := ResponseBody.error { Error := "Unsupported language", Code := 0 } }) :=
  transcription_unsupported_language sampleRuntime _ _ 0
    (sampleRequest (sampleHeader "audio/wav" "a.wav" 5) "xx")
    { data := [1, 2, 3], err := none } (sampleHeader "audio/wav" "a.wav" 5) "k"
    rfl rfl (by decide) (by decide) (by decide)

/-- Whatever error the upload service returns, the handler answers 500 "File upload failed". -/
theorem transcription_of_upload_error (rt : GoRuntime) (uploadService : IUploadService)
    (asrService : IASRService) (elapsed : Int) (c : GinRequest) (file : Reader)
    (header : FileHeader) (apiKeyStr : String) (err : GoError)
    (hfile : c.FormFile = some (file, header))
    (hkey : c.APIKey = some (ContextValue.str apiKeyStr))
    (hmodel : c.PostForm "model" ≠ "")
    (hlang : c.PostForm "language" = "" ∨ c.PostForm "language" ∈ SupportedLanguages)
    (hup : uploadService.UploadFile apiKeyStr file header (c.PostForm "model") 48 = .error err) :
    (Transcription rt uploadService asrService elapsed c).2 =
      errorJSON StatusInternalServerError "File upload failed" := by
  have hgate : ¬ (c.PostForm "language" ≠ "" ∧ (!IsValidLanguage (c.PostForm "language")) = true) := by
    rintro ⟨hne, hinv⟩
    rcases hlang with h0 | hin
    · exact hne h0
    · rw [(mem_supportedLanguages_iff _).mpr hin] at hinv
      exact Bool.noConfusion hinv
  unfold Transcription
  simp only [hfile, hkey]
  rw [if_neg hmodel, if_neg hgate]
  simp only [hup]

/-- C7, the code at failing stages.  An oversized file makes the upload stage fail with the
file-too-large error, whose status is 400, and a policy endpoint answering 403 makes it fail
with an external-service error, whose status is 502, as does a failing transcription call;
the handler answers each of the three with status 500. -/
theorem transcription_status_of_stage_failure :
    ((UploadService.asService sampleRuntime sampleConfig okUploader { UnixNano := 0 }
          { UnixNano := 0 }).UploadFile "k" { data := [1, 2, 3], err := none }
          (sampleHeader "audio/wav" "a.wav" 101) "qwen3-asr" 48 =
        .error (.api (NewFileSizeError 100)) ∧
      (NewFileSizeError 100).HTTPStatus = 400 ∧
      (Transcription sampleRuntime
        (UploadService.asService sampleRuntime sampleConfig okUploader { UnixNano := 0 }
          { UnixNano := 0 })
        (ASRService.asService (failingASRProvider (.other "unreachable"))) 0
        (sampleRequest (sampleHeader "audio/wav" "a.wav" 101) "")).2 =
        { Status := 500,
          Body := ResponseBody.error { Error := "File upload failed", Code := 0 } }) ∧
    ((NewExternalServiceError "DashScope" "Status: 403, Body: ").HTTPStatus = 502 ∧
      (Transcription sampleRuntime
        (UploadService.asService sampleRuntime sampleConfig
          (failingPolicyClient (.api (NewExternalServiceError "DashScope" "Status: 403, Body: ")))
          { UnixNano := 0 } { UnixNano := 0 })
        (ASRService.asService (failingASRProvider (.other "unreachable"))) 0
        (sampleRequest (sampleHeader "audio/wav" "a.wav" 5) "")).2 =
        { Status := 500,
          Body := ResponseBody.error { Error := "File upload failed", Code := 0 } }) ∧
    ((NewExternalServiceError "DashScope ASR" "Status: 503, Body: ").HTTPStatus = 502 ∧
      (Transcription sampleRuntime
        (UploadService.asService sampleRuntime sampleConfig okUploader { UnixNano := 0 }
          { UnixNano := 0 })
        (ASRService.asService (failingASRProvider
          (.api (NewExternalServiceError "DashScope ASR" "Status: 503, Body: ")))) 0
        (sampleRequest (sampleHeader "audio/wav" "a.wav" 5) "")) =
        ([ServiceCall.UploadFile "k" (sampleHeader "audio/wav" "a.wav" 5) "qwen3-asr" 48,
          ServiceCall.TranscribeAudio "k" "oss://ups/a.wav" "qwen3-asr" none ""],
         { Status := 500,
           Body := ResponseBody.error { Error := "Transcription failed", Code := 0 } })) := by
  refine ⟨⟨rfl, rfl, rfl⟩, ⟨rfl, rfl⟩, rfl, rfl⟩

/-! ## The multipart form and the object locator -/

/-- One `Write` on the underlying writer leaves the parts as they are. -/
theorem sinkWrite_parts (w w1 : MultipartWriter) (h : w.sinkWrite = .ok w1) :
    w1.parts = w.parts ∧ w1.sinkError = w.sinkError ∧ w1.boundary = w.boundary := by
  unfold MultipartWriter.sinkWrite at h
  split at h
  · exact Except.noConfusion h
  · have h2 := Except.ok.inj h
    rw [← h2]
    exact ⟨rfl, rfl, rfl⟩

/-- A successful `WriteField` appends exactly the field. -/
theorem writeField_parts (w w1 : MultipartWriter) (name value : String)
    (h : w.WriteField name value = .ok w1) :
    w1.parts = w.parts ++ [FormPart.field name value] := by
  unfold MultipartWriter.WriteField at h
  cases h1 : w.sinkWrite with
  | error err =>
    rw [h1] at h
    exact Except.noConfusion h
  | ok wa =>
    rw [h1] at h
    dsimp only at h
    cases h2 : wa.sinkWrite with
    | error err =>
      rw [h2] at h
      exact Except.noConfusion h
    | ok wb =>
      rw [h2] at h
      have h3 := Except.ok.inj h
      rw [← h3]
      dsimp only
      rw [(sinkWrite_parts wa wb h2).1, (sinkWrite_parts w wa h1).1]

/-- A successful run of the field loop appends the fields, in the order of the slice. -/
theorem writeFields_parts (fields : List (String × String)) (w w1 : MultipartWriter)
    (h : writeFields w fields = .ok w1) :
    w1.parts = w.parts ++ fields.map (fun f => FormPart.field f.1 f.2) := by
  induction fields generalizing w with
  | nil =>
    have h2 : w = w1 := Except.ok.inj h
    rw [← h2]
    simp
  | cons f rest ih =>
    obtain ⟨name, value⟩ := f
    unfold writeFields at h
    cases hw : w.WriteField name value with
    | error err =>
      rw [hw] at h
      exact Except.noConfusion h
    | ok wa =>
      rw [hw] at h
      dsimp only at h
      rw [ih wa h, writeField_parts w wa name value hw]
      simp

/-- Bytes written into the current part extend the content of a file part at the end. -/
theorem writeToLastPart_append_file (parts : List FormPart) (fieldname filename : String)
    (content d : Bytes) :
    writeToLastPart (parts ++ [FormPart.file fieldname filename content]) d =
      parts ++ [FormPart.file fieldname filename (content ++ d)] := by
  induction parts with
  | nil => rfl
  | cons p rest ih =>
    have hne : (rest ++ [FormPart.file fieldname filename content]).isEmpty = false := by
      cases rest <;> rfl
    show writeToLastPart (p :: (rest ++ [FormPart.file fieldname filename content])) d =
      p :: (rest ++ [FormPart.file fieldname filename (content ++ d)])
    rw [writeToLastPart, hne, ih]
    rfl

/-- A successful `io.Copy` into a fresh file part leaves that part with the reader's bytes. -/
theorem copy_parts (w w1 : MultipartWriter) (parts : List FormPart) (fieldname filename : String)
    (file : Reader) (hparts : w.parts = parts ++ [FormPart.file fieldname filename []])
    (h : w.Copy file = .ok w1) :
    w1.parts = parts ++ [FormPart.file fieldname filename file.data] ∧ file.err = none := by
  unfold MultipartWriter.Copy at h
  by_cases hd : file.data = []
  · rw [if_pos hd] at h
    dsimp only at h
    cases he : file.err with
    | some err =>
      rw [he] at h
      exact Except.noConfusion h
    | none =>
      rw [he] at h
      have h2 : w = w1 := Except.ok.inj h
      rw [← h2, hparts, hd]
      exact ⟨rfl, rfl⟩
  · rw [if_neg hd] at h
    cases hs : w.sinkWrite with
    | error err =>
      rw [hs] at h
      exact Except.noConfusion h
    | ok wa =>
      rw [hs] at h
      dsimp only at h
      cases he : file.err with
      | some err =>
        rw [he] at h
        exact Except.noConfusion h
      | none =>
        rw [he] at h
        have h2 := Except.ok.inj h
        rw [← h2]
        dsimp only
        rw [(sinkWrite_parts w wa hs).1, hparts, writeToLastPart_append_file]
        exact ⟨rfl, rfl⟩

/-- The deferred `Close` leaves the parts as they are. -/
theorem close_parts (w : MultipartWriter) : w.Close.parts = w.parts := by
  unfold MultipartWriter.Close
  cases hs : w.sinkWrite with
  | error err => rfl
  | ok wa => exact (sinkWrite_parts w wa hs).1

/-- The parts of a form that `createMultipartForm` wrote without error: the seven fields
of the slice, then the file part with the reader's bytes. -/
theorem createMultipartForm_parts (writer : Nat → Option GoError) (boundary : String)
    (policy : UploadPolicyData) (file : Reader) (fileName contentType : String)
    (w : MultipartWriter)
    (h : createMultipartForm writer boundary policy file fileName = .ok (contentType, w)) :
    w.parts = (formFields policy fileName).map (fun f => FormPart.field f.1 f.2) ++
      [FormPart.file "file" fileName file.data] := by
  unfold createMultipartForm at h
  dsimp only at h
  cases h1 : writeFields (NewWriter writer boundary) (formFields policy fileName) with
  | error err =>
    rw [h1] at h
    exact Except.noConfusion h
  | ok w1 =>
    rw [h1] at h
    dsimp only at h
    cases h2 : w1.CreateFormFile "file" fileName with
    | error err =>
      rw [h2] at h
      exact Except.noConfusion h
    | ok w2 =>
      rw [h2] at h
      dsimp only at h
      cases h3 : w2.Copy file with
      | error err =>
        rw [h3] at h
        exact Except.noConfusion h
      | ok w3 =>
        rw [h3] at h
        have h4 := Except.ok.inj h
        have hw : w3.Close = w := congrArg Prod.snd h4
        have hp1 := writeFields_parts _ _ _ h1
        have hp2 : w2.parts = w1.parts ++ [FormPart.file "file" fileName []] := by
          unfold MultipartWriter.CreateFormFile at h2
          cases hs : w1.sinkWrite with
          | error err =>
            rw [hs] at h2
            exact Except.noConfusion h2
          | ok wa =>
            rw [hs] at h2
            have h5 := Except.ok.inj h2
            rw [← h5]
            dsimp only
            rw [(sinkWrite_parts w1 wa hs).1]
        rw [← hw, close_parts, (copy_parts w2 w3 w1.parts "file" fileName file hp2 h3).1, hp1]
        rfl

/-- The form written into a `bytes.Buffer`, whose writes do not fail: when it is written
without error, the reader did not fail, the content type names the boundary and the form
is closed. -/
theorem createMultipartForm_buffer (boundary : String) (policy : UploadPolicyData)
    (file : Reader) (fileName contentType : String) (w : MultipartWriter)
    (h : createMultipartForm bufferSink boundary policy file fileName = .ok (contentType, w)) :
    file.err = none ∧ contentType = "multipart/form-data; boundary=" ++ boundary ∧
      w.closed = true := by
  cases herr : file.err with
  | some err =>
    exfalso
    by_cases hd : file.data = []
    · simp [createMultipartForm, writeFields, formFields, MultipartWriter.WriteField,
        MultipartWriter.sinkWrite, MultipartWriter.CreateFormFile, MultipartWriter.Copy,
        NewWriter, bufferSink, herr, hd] at h
    · simp [createMultipartForm, writeFields, formFields, MultipartWriter.WriteField,
        MultipartWriter.sinkWrite, MultipartWriter.CreateFormFile, MultipartWriter.Copy,
        NewWriter, bufferSink, herr, hd] at h
  | none =>
    refine ⟨rfl, ?_⟩
    by_cases hd : file.data = []
    · simp [createMultipartForm, writeFields, formFields, MultipartWriter.WriteField,
        MultipartWriter.sinkWrite, MultipartWriter.CreateFormFile, MultipartWriter.Copy,
        MultipartWriter.Close, MultipartWriter.FormDataContentType,
        NewWriter, bufferSink, herr, hd] at h
      obtain ⟨hct, hw⟩ := h
      rw [← hct, ← hw]
      exact ⟨rfl, rfl⟩
    · simp [createMultipartForm, writeFields, formFields, MultipartWriter.WriteField,
        MultipartWriter.sinkWrite, MultipartWriter.CreateFormFile, MultipartWriter.Copy,
        MultipartWriter.Close, MultipartWriter.FormDataContentType,
        NewWriter, bufferSink, herr, hd] at h
      obtain ⟨hct, hw⟩ := h
      rw [← hct, ← hw]
      exact ⟨rfl, rfl⟩

/-- A `bytes.Buffer` takes the whole form whenever the file reader does not fail. -/
theorem createMultipartForm_buffer_ok (boundary : String) (policy : UploadPolicyData)
    (file : Reader) (fileName : String) (herr : file.err = none) :
    ∃ contentType w,
      createMultipartForm bufferSink boundary policy file fileName = .ok (contentType, w) := by
  by_cases hd : file.data = []
  · simp [createMultipartForm, writeFields, formFields, MultipartWriter.WriteField,
      MultipartWriter.sinkWrite, MultipartWriter.CreateFormFile, MultipartWriter.Copy,
      NewWriter, bufferSink, herr, hd]
  · simp [createMultipartForm, writeFields, formFields, MultipartWriter.WriteField,
      MultipartWriter.sinkWrite, MultipartWriter.CreateFormFile, MultipartWriter.Copy,
      NewWriter, bufferSink, herr, hd]

/-- C8. When `UploadToOSS` succeeds, the locator it returns is `oss://` followed by
`UploadDir/fileName`, and the object store answered 200 to the request it was handed: a
`POST` to the policy's upload host whose body is the closed form with the seven fields and
the file part, the `key` field of which has the value `UploadDir/fileName`.  Conversely,
when the file can be read, the request can be built and the object store answers that
request with 200, `UploadToOSS` returns this locator. -/
theorem uploadToOSS_locator (http : HTTPClient) (boundary : String) (policy : UploadPolicyData)
    (file : Reader) (fileName : String) :
    (∀ url, UploadToOSS http boundary policy file fileName = .ok url →
        url = "oss://" ++ (policy.UploadDir ++ "/" ++ fileName) ∧
        ∃ resp,
          http.Do
            { Method := "POST", URL := policy.UploadHost,
              Header := [("Content-Type", "multipart/form-data; boundary=" ++ boundary)],
              Body := RequestBody.form
                [FormPart.field "OSSAccessKeyId" policy.OSSAccessKeyID,
                 FormPart.field "Signature" policy.Signature,
                 FormPart.field "policy" policy.Policy,
                 FormPart.field "x-oss-object-acl" policy.XOSSObjectACL,
                 FormPart.field "x-oss-forbid-overwrite" policy.XOSSForbidOverwrite,
                 FormPart.field "key" (policy.UploadDir ++ "/" ++ fileName),
                 FormPart.field "success_action_status" "200",
                 FormPart.file "file" fileName file.data] true } = .ok resp ∧
          resp.StatusCode = 200) ∧
      (∀ resp, file.err = none → http.NewRequestError "POST" policy.UploadHost = none →
        http.Do
            { Method := "POST", URL := policy.UploadHost,
              Header := [("Content-Type", "multipart/form-data; boundary=" ++ boundary)],
              Body := RequestBody.form
                [FormPart.field "OSSAccessKeyId" policy.OSSAccessKeyID,
                 FormPart.field "Signature" policy.Signature,
                 FormPart.field "policy" policy.Policy,
                 FormPart.field "x-oss-object-acl" policy.XOSSObjectACL,
                 FormPart.field "x-oss-forbid-overwrite" policy.XOSSForbidOverwrite,
                 FormPart.field "key" (policy.UploadDir ++ "/" ++ fileName),
                 FormPart.field "success_action_status" "200",
                 FormPart.file "file" fileName file.data] true } = .ok resp →
        resp.StatusCode = 200 →
        UploadToOSS http boundary policy file fileName =
          .ok ("oss://" ++ (policy.UploadDir ++ "/" ++ fileName))) := by
  have hrequest : ∀ contentType w,
      createMultipartForm bufferSink boundary policy file fileName = .ok (contentType, w) →
      uploadRequest policy contentType w =
        { Method := "POST", URL := policy.UploadHost,
          Header := [("Content-Type", "multipart/form-data; boundary=" ++ boundary)],
          Body := RequestBody.form
            [FormPart.field "OSSAccessKeyId" policy.OSSAccessKeyID,
             FormPart.field "Signature" policy.Signature,
             FormPart.field "policy" policy.Policy,
             FormPart.field "x-oss-object-acl" policy.XOSSObjectACL,
             FormPart.field "x-oss-forbid-overwrite" policy.XOSSForbidOverwrite,
             FormPart.field "key" (policy.UploadDir ++ "/" ++ fileName),
             FormPart.field "success_action_status" "200",
             FormPart.file "file" fileName file.data] true } := by
    intro contentType w hform
    obtain ⟨-, hct, hclosed⟩ :=
      createMultipartForm_buffer boundary policy file fileName contentType w hform
    unfold uploadRequest
    rw [createMultipartForm_parts bufferSink boundary policy file fileName contentType w hform,
      hct, hclosed]
    rfl
  constructor
  · intro url h
    unfold UploadToOSS at h
    cases hform : createMultipartForm bufferSink boundary policy file fileName with
    | error err =>
      rw [hform] at h
      exact Except.noConfusion h
    | ok res =>
      obtain ⟨contentType, w⟩ := res
      rw [hform] at h
      dsimp only at h
      cases hreq : http.NewRequestError "POST" policy.UploadHost with
      | some err =>
        rw [hreq] at h
        exact Except.noConfusion h
      | none =>
        rw [hreq] at h
        dsimp only at h
        cases hdo : http.Do (uploadRequest policy contentType w) with
        | error err =>
          rw [hdo] at h
          exact Except.noConfusion h
        | ok resp =>
          rw [hdo] at h
          dsimp only at h
          by_cases hst : resp.StatusCode ≠ StatusOK
          · rw [if_pos hst] at h
            exact Except.noConfusion h
          · rw [if_neg hst] at h
            have hurl : "oss://" ++ objectKey policy fileName = url := Except.ok.inj h
            rw [hrequest contentType w hform] at hdo
            exact ⟨hurl.symm, resp, hdo, not_not.mp hst⟩
  · intro resp herr hreq hdo hst
    obtain ⟨contentType, w, hform⟩ :=
      createMultipartForm_buffer_ok boundary policy file fileName herr
    rw [← hrequest contentType w hform] at hdo
    have hok : ¬ resp.StatusCode ≠ StatusOK := not_not.mpr hst
    unfold UploadToOSS
    simp only [hform, hreq, hdo]
    rw [if_neg hok]
    rfl

/-- For the upload directory `ups` and the file name `a.wav` the locator is
`oss://ups/a.wav`, with an object store that answers only the request carrying the form
whose `key` field is `ups/a.wav` and fails on every other request. -/
theorem uploadToOSS_locator_witness :
    UploadToOSS
        (onlyClient
          { Method := "POST", URL := "https://bucket.example",
            Header := [("Content-Type", "multipart/form-data; boundary=boundary")],
            Body := RequestBody.form
              [FormPart.field "OSSAccessKeyId" "id",
               FormPart.field "Signature" "sig",
               FormPart.field "policy" "pol",
               FormPart.field "x-oss-object-acl" "private",
               FormPart.field "x-oss-forbid-overwrite" "true",
               FormPart.field "key" "ups/a.wav",
               FormPart.field "success_action_status" "200",
               FormPart.file "file" "a.wav" [1, 2, 3]] true }
          "")
        "boundary" samplePolicy { data := [1, 2, 3], err := none } "a.wav" =
      .ok "oss://ups/a.wav" :=
  ((uploadToOSS_locator _ "boundary" samplePolicy { data := [1, 2, 3], err := none }
    "a.wav").2 { StatusCode := 200, Body := "" } rfl rfl rfl rfl).trans rfl

/-- C9. A form that `createMultipartForm` writes without error consists of exactly these
parts, in this order: `OSSAccessKeyId`, `Signature`, `policy`, `x-oss-object-acl`,
`x-oss-forbid-overwrite`, `key` (with value `UploadDir/fileName`), `success_action_status`
(with value `200`), and last the part `file` with the file content.  Writing does succeed
when the underlying writer and the file reader do not fail. -/
theorem createMultipartForm_part_order (writer : Nat → Option GoError) (boundary : String)
    (policy : UploadPolicyData) (file : Reader) (fileName : String) :
    (∀ contentType w,
        createMultipartForm writer boundary policy file fileName = .ok (contentType, w) →
        w.parts =
          [FormPart.field "OSSAccessKeyId" policy.OSSAccessKeyID,
           FormPart.field "Signature" policy.Signature,
           FormPart.field "policy" policy.Policy,
           FormPart.field "x-oss-object-acl" policy.XOSSObjectACL,
           FormPart.field "x-oss-forbid-overwrite" policy.XOSSForbidOverwrite,
           FormPart.field "key" (policy.UploadDir ++ "/" ++ fileName),
           FormPart.field "success_action_status" "200",
           FormPart.file "file" fileName file.data]) ∧
      ((∀ n, writer n = none) → file.err = none →
        ∃ contentType w,
          createMultipartForm writer boundary policy file fileName = .ok (contentType, w)) := by
  constructor
  · intro contentType w h
    rw [createMultipartForm_parts writer boundary policy file fileName contentType w h]
    rfl
  · intro hw herr
    by_cases hd : file.data = []
    · simp [createMultipartForm, writeFields, formFields, MultipartWriter.WriteField,
        MultipartWriter.sinkWrite, MultipartWriter.CreateFormFile, MultipartWriter.Copy,
        NewWriter, hw, herr, hd]
    · simp [createMultipartForm, writeFields, formFields, MultipartWriter.WriteField,
        MultipartWriter.sinkWrite, MultipartWriter.CreateFormFile, MultipartWriter.Copy,
        NewWriter, hw, herr, hd]

/-- The form written for `samplePolicy` and the file `a.wav` into a buffer. -/
theorem createMultipartForm_part_order_witness :
    ∃ contentType w,
      createMultipartForm bufferSink "boundary" samplePolicy { data := [1, 2, 3], err := none }
        "a.wav" = .ok (contentType, w) ∧
      w.parts =
        [FormPart.field "OSSAccessKeyId" "id",
         FormPart.field "Signature" "sig",
         FormPart.field "policy" "pol",
         FormPart.field "x-oss-object-acl" "private",
         FormPart.field "x-oss-forbid-overwrite" "true",
         FormPart.field "key" ("ups" ++ "/" ++ "a.wav"),
         FormPart.field "success_action_status" "200",
         FormPart.file "file" "a.wav" [1, 2, 3]] :=
  ⟨_, _, rfl,
    (createMultipartForm_part_order bufferSink "boundary" samplePolicy
      { data := [1, 2, 3], err := none } "a.wav").1 _ _ rfl⟩

/-! ## Response translation -/

/-- C10. For an absent response and for a response without choices, whatever its usage
counters and request id, `ConvertToOpenAIFormat` returns text "", task "transcribe",
language "unknown", duration 0 and the processing time it was given. -/
theorem convertToOpenAIFormat_no_choice (asrResponse : Option ASRResponse)
    (processingTimeMs : Int)
    (h : asrResponse = none ∨ ∃ r, asrResponse = some r ∧ r.Output.Choices = []) :
    ConvertToOpenAIFormat asrResponse processingTimeMs =
      { Text := "", Task := "transcribe", Language := "unknown", Duration := Float64.zero,
        Words := [], UploadInfo := none, ProcessingTime := processingTimeMs } := by
  rcases h with h | ⟨r, hr, hc⟩
  · rw [h]
    rfl
  · rw [hr]
    simp [ConvertToOpenAIFormat, hc]

/-- A response with no choice, non-zero usage counters and a request id. -/
theorem convertToOpenAIFormat_no_choice_witness :
    ConvertToOpenAIFormat
        (some { Output := { Choices := [] },
                Usage := { InputTokensDetails := some { TextTokens := 7 },
                           OutputTokensDetails := { TextTokens := 9 },
                           Seconds := some { bits := 4611686018427387904 } },
                Request := "req-1" }) 1234 =
      { Text := "", Task := "transcribe", Language := "unknown", Duration := Float64.zero,
        Words := [], UploadInfo := none, ProcessingTime := 1234 } :=
  convertToOpenAIFormat_no_choice _ 1234 (Or.inr ⟨_, rfl, rfl⟩)

/-- A Go string has positive length exactly when it is not the empty string. -/
theorem string_length_pos_iff (s : String) : s.length > 0 ↔ s ≠ "" := by
  constructor
  · intro h he
    rw [he] at h
    exact absurd h (by decide)
  · intro h
    by_contra hn
    have h0 : s.length = 0 := by omega
    apply h
    apply String.ext
    exact List.length_eq_zero.mp h0

/-- C11. For a response with at least one choice, `ConvertToOpenAIFormat` returns task
"transcribe", the processing time it was given, the text of the first content item of the
first choice ("" when there is none), the usage seconds as duration (0 when absent) and the
language "" when the first choice has no annotation; the result is the one obtained from
the first choice alone, with only its first content item kept. -/
theorem convertToOpenAIFormat_first_choice (resp : ASRResponse) (choice : ASRChoice)
    (rest : List ASRChoice) (p : Int) (h : resp.Output.Choices = choice :: rest) :
    (ConvertToOpenAIFormat (some resp) p).Task = "transcribe" ∧
      (ConvertToOpenAIFormat (some resp) p).ProcessingTime = p ∧
      (ConvertToOpenAIFormat (some resp) p).Text =
        (choice.Message.Content.head?.map ASRContent.Text).getD "" ∧
      (ConvertToOpenAIFormat (some resp) p).Duration = resp.Usage.Seconds.getD Float64.zero ∧
      (choice.Message.Annotations = [] → (ConvertToOpenAIFormat (some resp) p).Language = "") ∧
      ConvertToOpenAIFormat (some resp) p =
        ConvertToOpenAIFormat
          (some { resp with
            Output := { Choices :=
              [{ choice with
                 Message := { choice.Message with Content := choice.Message.Content.take 1 } }] } })
          p := by
  refine ⟨?_, ?_, ?_, ?_, ?_, ?_⟩
  · simp [ConvertToOpenAIFormat, h]
  · simp [ConvertToOpenAIFormat, h]
  · cases hc : choice.Message.Content <;> simp [ConvertToOpenAIFormat, h, hc]
  · cases hs : resp.Usage.Seconds <;> simp [ConvertToOpenAIFormat, h, hs]
  · intro ha
    cases hc : choice.Message.Content <;> simp [ConvertToOpenAIFormat, h, hc, ha]
  · cases hc : choice.Message.Content <;> simp [ConvertToOpenAIFormat, h, hc]

/-- One choice with the text "hello world" and no annotation gives that text, the task
"transcribe" and the language "". -/
theorem convertToOpenAIFormat_first_choice_witness :
    (ConvertToOpenAIFormat (some (sampleResponse [{ Text := "hello world", Audio := "" }] []))
        1234).Text = "hello world" ∧
      (ConvertToOpenAIFormat (some (sampleResponse [{ Text := "hello world", Audio := "" }] []))
        1234).Task = "transcribe" ∧
      (ConvertToOpenAIFormat (some (sampleResponse [{ Text := "hello world", Audio := "" }] []))
        1234).Language = "" :=
  ⟨(convertToOpenAIFormat_first_choice
      (sampleResponse [{ Text := "hello world", Audio := "" }] []) _ [] 1234 rfl).2.2.1,
   (convertToOpenAIFormat_first_choice
      (sampleResponse [{ Text := "hello world", Audio := "" }] []) _ [] 1234 rfl).1,
   (convertToOpenAIFormat_first_choice
      (sampleResponse [{ Text := "hello world", Audio := "" }] []) _ [] 1234 rfl).2.2.2.2.1 rfl⟩

/-- C12, the code at an annotated choice without content.  A first choice with the
annotation language `en` and no content item gets the language "", not `en`, from
`ConvertToOpenAIFormat`, while `CreateVerboseResponse` reports the detected language `en`
for the same response. -/
theorem convertToOpenAIFormat_language_without_content :
    (ConvertToOpenAIFormat
        (some (sampleResponse [] [{ Language := "en", Kind := "language", Emotion := "neutral" }]))
        0).Language = "" ∧
      (ConvertToOpenAIFormat
        (some (sampleResponse [] [{ Language := "en", Kind := "language", Emotion := "neutral" }]))
        0).Language ≠ "en" ∧
      (CreateVerboseResponse sampleRuntime
        (some (sampleResponse [] [{ Language := "en", Kind := "language", Emotion := "neutral" }]))
        0 none).map (fun v => v.ASRMetadata.map ASRMetadata.DetectedLanguage) =
        some (some "en") := by
  refine ⟨rfl, by decide, rfl⟩

/-- What the code does with an annotated first choice: the language is the language code
of its first annotation if the first choice has a first content item with non-empty text,
and is "" if it has no content item or the text of the first one is empty. -/
theorem convertToOpenAIFormat_language (resp : ASRResponse) (choice : ASRChoice)
    (rest : List ASRChoice) ( annotation : ASRAnnotation) (annotations : List ASRAnnotation)
    (p : Int) (h : resp.Output.Choices = choice :: rest)
    (ha : choice.Message.Annotations = annotation :: annotations) :
    (∀ content contents, choice.Message.Content = content :: contents → content.Text ≠ "" →
        (ConvertToOpenAIFormat (some resp) p).Language = annotation.Language) ∧
      (∀ content contents, choice.Message.Content = content :: contents → content.Text = "" →
        (ConvertToOpenAIFormat (some resp) p).Language = "") ∧
      (choice.Message.Content = [] → (ConvertToOpenAIFormat (some resp) p).Language = "") := by
  refine ⟨?_, ?_, ?_⟩
  · intro content contents hc ht
    have hpos : content.Text.length > 0 := (string_length_pos_iff _).mpr ht
    simp [ConvertToOpenAIFormat, h, hc, ha, hpos]
  · intro content contents hc ht
    simp [ConvertToOpenAIFormat, h, hc, ha, ht]
  · intro hc
    simp [ConvertToOpenAIFormat, h, hc]

/-- The three cases of the guard on the annotation language at concrete responses. -/
theorem convertToOpenAIFormat_language_witness :
    (ConvertToOpenAIFormat
        (some (sampleResponse [{ Text := "hi", Audio := "" }]
          [{ Language := "en", Kind := "language", Emotion := "neutral" }])) 0).Language = "en" ∧
      (ConvertToOpenAIFormat
        (some (sampleResponse [{ Text := "", Audio := "" }]
          [{ Language := "en", Kind := "language", Emotion := "neutral" }])) 0).Language = "" ∧
      (ConvertToOpenAIFormat
        (some (sampleResponse []
          [{ Language := "en", Kind := "language", Emotion := "neutral" }])) 0).Language = "" :=
  ⟨(convertToOpenAIFormat_language
      (sampleResponse [{ Text := "hi", Audio := "" }]
        [{ Language := "en", Kind := "language", Emotion := "neutral" }])
      _ [] _ [] 0 rfl rfl).1 _ [] rfl (by decide),
   (convertToOpenAIFormat_language
      (sampleResponse [{ Text := "", Audio := "" }]
        [{ Language := "en", Kind := "language", Emotion := "neutral" }])
      _ [] _ [] 0 rfl rfl).2.1 _ [] rfl rfl,
   (convertToOpenAIFormat_language
      (sampleResponse [] [{ Language := "en", Kind := "language", Emotion := "neutral" }])
      _ [] _ [] 0 rfl rfl).2.2 rfl⟩

/-- The basic response carries no upload-info: the handler attaches it afterwards. -/
theorem convertToOpenAIFormat_uploadInfo (asrResponse : Option ASRResponse) (p : Int) :
    (ConvertToOpenAIFormat asrResponse p).UploadInfo = none := by
  unfold ConvertToOpenAIFormat
  cases asrResponse with
  | none => rfl
  | some resp =>
    dsimp only
    cases resp.Output.Choices <;> rfl

/-- C13. For a present response, `CreateVerboseResponse` returns a response whose text,
task, language, duration and processing time are those of `ConvertToOpenAIFormat`, whose
request id is the response's, whose upload-info echoes the upload result (locator, RFC 3339
expiry, model) and is absent without one, and whose metadata block is present exactly when
the first choice exists and has an annotation; it then carries the first annotation's
language and emotion, the first choice's finish reason and the usage counters, the optional
ones counting as 0 when absent. -/
theorem createVerboseResponse_spec (rt : GoRuntime) (resp : ASRResponse) (p : Int)
    (uploadInfo : Option UploadResult) :
    ∃ v, CreateVerboseResponse rt (some resp) p uploadInfo = some v ∧
      v.Text = (ConvertToOpenAIFormat (some resp) p).Text ∧
      v.Task = (ConvertToOpenAIFormat (some resp) p).Task ∧
      v.Language = (ConvertToOpenAIFormat (some resp) p).Language ∧
      v.Duration = (ConvertToOpenAIFormat (some resp) p).Duration ∧
      v.ProcessingTime = (ConvertToOpenAIFormat (some resp) p).ProcessingTime ∧
      v.RequestID = resp.Request ∧
      v.UploadInfo = uploadInfo.map (fun u =>
        { OSSURL := u.OSSURL, ExpireTime := rt.FormatRFC3339 u.ExpireTime,
          ModelUsed := u.ModelUsed }) ∧
      (v.ASRMetadata.isSome = true ↔
        ∃ choice rest annotation annotations,
          resp.Output.Choices = choice :: rest ∧
          choice.Message.Annotations = annotation :: annotations) ∧
      (∀ choice rest annotation annotations,
        resp.Output.Choices = choice :: rest →
        choice.Message.Annotations = annotation :: annotations →
        v.ASRMetadata = some
          { DetectedLanguage := annotation.Language,
            Emotion := annotation.Emotion,
            FinishReason := choice.FinishReason,
            Usage :=
              { InputTokens := (resp.Usage.InputTokensDetails.map
                  ASRInputTokensDetails.TextTokens).getD 0,
                OutputTokens := resp.Usage.OutputTokensDetails.TextTokens,
                AudioSeconds := resp.Usage.Seconds.getD Float64.zero } }) := by
  have husage : convertUsageInfo resp.Usage =
      { InputTokens := (resp.Usage.InputTokensDetails.map
          ASRInputTokensDetails.TextTokens).getD 0,
        OutputTokens := resp.Usage.OutputTokensDetails.TextTokens,
        AudioSeconds := resp.Usage.Seconds.getD Float64.zero } := by
    unfold convertUsageInfo
    cases resp.Usage.InputTokensDetails <;> cases resp.Usage.Seconds <;> rfl
  have hnone := convertToOpenAIFormat_uploadInfo (some resp) p
  cases hch : resp.Output.Choices with
  | nil =>
    cases uploadInfo <;>
      exact ⟨_, by simp [CreateVerboseResponse, hch]; rfl, by simp [hnone]⟩
  | cons choice rest =>
    cases han : choice.Message.Annotations with
    | nil =>
      have hno : ∀ (c : ASRChoice) (r : List ASRChoice) (a : ASRAnnotation)
          (as : List ASRAnnotation), choice = c → rest = r → ¬ c.Message.Annotations = a :: as := by
        intro c r a as hc _ hca
        rw [← hc, han] at hca
        exact List.noConfusion hca
      cases uploadInfo <;>
        exact ⟨_, by simp [CreateVerboseResponse, hch, han]; rfl, by simp [han, hnone]; exact hno⟩
    | cons annotation annotations =>
      have hyes : ∀ (c : ASRChoice) (r : List ASRChoice) (a : ASRAnnotation)
          (as : List ASRAnnotation), choice = c → rest = r → c.Message.Annotations = a :: as →
          annotation.Language = a.Language ∧ annotation.Emotion = a.Emotion ∧
            choice.FinishReason = c.FinishReason := by
        intro c r a as hc _ hca
        rw [← hc, han] at hca
        have hhead : annotation = a := (List.cons.inj hca).1
        rw [← hc, ← hhead]
        exact ⟨rfl, rfl, rfl⟩
      cases uploadInfo <;>
        exact ⟨_, by simp [CreateVerboseResponse, hch, han]; rfl,
          by simp [han, husage, hnone]; exact hyes⟩

/-- The verbose response for one annotated choice and an upload result: the metadata block
and the upload-info are both present. -/
theorem createVerboseResponse_spec_witness :
    ∃ v,
      CreateVerboseResponse sampleRuntime
        (some (sampleResponse [{ Text := "hi", Audio := "" }]
          [{ Language := "en", Kind := "language", Emotion := "neutral" }]))
        1500
        (some { OSSURL := "oss://ups/a.wav", ExpireTime := { UnixNano := 7 },
                ModelUsed := "qwen3-asr" }) = some v ∧
      v.RequestID = "req-1" ∧
      v.UploadInfo = some { OSSURL := "oss://ups/a.wav", ExpireTime := "7",
                            ModelUsed := "qwen3-asr" } ∧
      v.ASRMetadata = some
        { DetectedLanguage := "en", Emotion := "neutral", FinishReason := "stop",
          Usage := { InputTokens := 7, OutputTokens := 9,
                     AudioSeconds := { bits := 4611686018427387904 } } } := by
  obtain ⟨v, hv, -, -, -, -, -, hid, hup, -, hmeta⟩ :=
    createVerboseResponse_spec sampleRuntime
      (sampleResponse [{ Text := "hi", Audio := "" }]
        [{ Language := "en", Kind := "language", Emotion := "neutral" }])
      1500
      (some { OSSURL := "oss://ups/a.wav", ExpireTime := { UnixNano := 7 },
              ModelUsed := "qwen3-asr" })
  exact ⟨v, hv, hid, hup.trans rfl, (hmeta _ [] _ [] rfl rfl).trans rfl⟩

/-! ## The clients -/

/-- What `CallASR` returns once `http.NewRequestWithContext` has succeeded: the outcome is
decided by the answer to the one request it sends. -/
theorem callASR_of_request (http : HTTPClient) (dec : JSONDecoder)
    (baseURL apiKey audioURL model : String) (language : Option SupportedLanguage)
    (enableITN : Bool) (prompt : String) (hreq : http.NewRequestError "POST" baseURL = none) :
    CallASR http dec baseURL apiKey audioURL model language enableITN prompt =
      match http.Do (asrHTTPRequest baseURL apiKey
          (buildASRRequest audioURL model language enableITN prompt)) with
      | .error err => .error (.api (NewExternalServiceError "DashScope ASR" err.Error))
      | .ok resp =>
        if resp.StatusCode ≠ StatusOK then
          .error (.api (NewExternalServiceError "DashScope ASR"
            ("Status: " ++ fmtInt resp.StatusCode ++ ", Body: " ++ resp.Body)))
        else
          match dec.DecodeASRResponse resp.Body with
          | .error err =>
            .error (.api (NewInternalServerError ("Failed to decode ASR response: " ++ err.Error)))
          | .ok asrResponse => .ok asrResponse := by
  unfold CallASR
  simp only [hreq]
  rfl

/-- What `GetUploadPolicy` returns once `http.NewRequestWithContext` has succeeded. -/
theorem getUploadPolicy_of_request (http : HTTPClient) (dec : JSONDecoder)
    (apiKey modelName : String)
    (hreq : http.NewRequestError "GET"
      (UploadBaseURL ++ "?action=getPolicy&model=" ++ modelName) = none) :
    GetUploadPolicy http dec apiKey modelName =
      match http.Do (policyRequest apiKey modelName) with
      | .error err => .error (.api (NewExternalServiceError "DashScope" err.Error))
      | .ok resp =>
        if resp.StatusCode ≠ StatusOK then
          .error (.api (NewExternalServiceError "DashScope"
            ("Status: " ++ fmtInt resp.StatusCode ++ ", Body: " ++ resp.Body)))
        else
          match dec.DecodeUploadPolicy resp.Body with
          | .error err =>
            .error (.api (NewInternalServerError ("Failed to decode response: " ++ err.Error)))
          | .ok data => .ok data := by
  unfold GetUploadPolicy
  simp only [hreq]
  rfl

/-- C14. The request value that `TranscribeAudio` has `CallASR` build consists of a
`system` message whose one content item carries the prompt, or a single space when the
prompt is empty, followed by a `user` message whose one content item carries the audio
locator and no text; `enable_itn` is true and the language option is the supplied language,
or empty when none is supplied.  This value is the body of the one request sent: the result
of `TranscribeAudio` is decided by the answer to that request. -/
theorem transcribeAudio_request (dec : JSONDecoder) (baseURL apiKey audioURL model : String)
    (language : Option SupportedLanguage) (prompt : String) :
    buildASRRequest audioURL model language true prompt =
        { Model := model,
          Input := { Messages :=
            [{ Role := "system",
               Content := [{ Text := if prompt = "" then " " else prompt, Audio := "" }],
               Annotations := [] },
             { Role := "user",
               Content := [{ Text := "", Audio := audioURL }],
               Annotations := [] }] },
          Parameters := { ASROptions := { EnableITN := true, Language := language.getD "" } } } ∧
      (∀ http1 http2 : HTTPClient,
        http1.NewRequestError "POST" baseURL = none →
        http2.NewRequestError "POST" baseURL = none →
        http1.Do (asrHTTPRequest baseURL apiKey
            (buildASRRequest audioURL model language true prompt)) =
          http2.Do (asrHTTPRequest baseURL apiKey
            (buildASRRequest audioURL model language true prompt)) →
        TranscribeAudio (DashScopeClient.asASRProvider http1 dec baseURL) apiKey audioURL model
            language prompt =
          TranscribeAudio (DashScopeClient.asASRProvider http2 dec baseURL) apiKey audioURL model
            language prompt) ∧
      (∀ (http : HTTPClient) (resp : HTTPResponse) (asrResponse : ASRResponse),
        http.NewRequestError "POST" baseURL = none →
        http.Do (asrHTTPRequest baseURL apiKey
            (buildASRRequest audioURL model language true prompt)) = .ok resp →
        resp.StatusCode = 200 →
        dec.DecodeASRResponse resp.Body = .ok asrResponse →
        TranscribeAudio (DashScopeClient.asASRProvider http dec baseURL) apiKey audioURL model
            language prompt = .ok (some asrResponse)) := by
  refine ⟨?_, ?_, ?_⟩
  · cases language <;> rfl
  · intro http1 http2 h1 h2 hdo
    simp only [TranscribeAudio, DashScopeClient.asASRProvider]
    rw [callASR_of_request http1 dec baseURL apiKey audioURL model language true prompt h1,
      callASR_of_request http2 dec baseURL apiKey audioURL model language true prompt h2, hdo]
  · intro http resp asrResponse hreq hdo hst hdec
    simp only [TranscribeAudio, DashScopeClient.asASRProvider]
    rw [callASR_of_request http dec baseURL apiKey audioURL model language true prompt hreq, hdo]
    have hok : ¬ resp.StatusCode ≠ StatusOK := not_not.mpr hst
    simp only [if_neg hok, hdec]
    rfl

/-- With no prompt and no language, a client that answers only the request with the
single-space system message, the audio-only user message, `enable_itn` true and no language
gets its answer through. -/
theorem transcribeAudio_request_witness :
    TranscribeAudio
        (DashScopeClient.asASRProvider
          (onlyClient
            (asrHTTPRequest ASREndpoint "k"
              { Model := "qwen3-asr",
                Input := { Messages :=
                  [{ Role := "system", Content := [{ Text := " ", Audio := "" }],
                     Annotations := [] },
                   { Role := "user", Content := [{ Text := "", Audio := "oss://ups/a.wav" }],
                     Annotations := [] }] },
                Parameters := { ASROptions := { EnableITN := true, Language := "" } } })
            "body")
          sampleDecoder ASREndpoint)
        "k" "oss://ups/a.wav" "qwen3-asr" none "" =
      .ok (some (sampleResponse [{ Text := "hello world", Audio := "" }] [])) :=
  (transcribeAudio_request sampleDecoder ASREndpoint "k" "oss://ups/a.wav" "qwen3-asr" none
    "").2.2 _ { StatusCode := 200, Body := "body" } _ rfl rfl rfl rfl

/-- C16. When the upstream answers with a status outside 200..299, `GetUploadPolicy` and
`CallASR` each return an external-service error: an `APIError` of status 502 whose details
are the upstream status code and the raw body.  No policy and no ASR result is returned, and
the body is not decoded: the decoder does not enter the result. -/
theorem clients_non2xx (http : HTTPClient) (dec : JSONDecoder) (resp : HTTPResponse)
    (hout : resp.StatusCode < 200 ∨ 299 < resp.StatusCode) :
    (∀ apiKey modelName,
        http.NewRequestError "GET"
          (UploadBaseURL ++ "?action=getPolicy&model=" ++ modelName) = none →
        http.Do (policyRequest apiKey modelName) = .ok resp →
        GetUploadPolicy http dec apiKey modelName =
            .error (.api (NewExternalServiceError "DashScope"
              ("Status: " ++ fmtInt resp.StatusCode ++ ", Body: " ++ resp.Body))) ∧
          (NewExternalServiceError "DashScope"
            ("Status: " ++ fmtInt resp.StatusCode ++ ", Body: " ++ resp.Body)).HTTPStatus = 502) ∧
      (∀ baseURL apiKey audioURL model language enableITN prompt,
        http.NewRequestError "POST" baseURL = none →
        http.Do (asrHTTPRequest baseURL apiKey
            (buildASRRequest audioURL model language enableITN prompt)) = .ok resp →
        CallASR http dec baseURL apiKey audioURL model language enableITN prompt =
            .error (.api (NewExternalServiceError "DashScope ASR"
              ("Status: " ++ fmtInt resp.StatusCode ++ ", Body: " ++ resp.Body))) ∧
          (NewExternalServiceError "DashScope ASR"
            ("Status: " ++ fmtInt resp.StatusCode ++ ", Body: " ++ resp.Body)).HTTPStatus = 502) := by
  have hne : resp.StatusCode ≠ StatusOK := by
    unfold StatusOK
    omega
  constructor
  · intro apiKey modelName hreq hdo
    rw [getUploadPolicy_of_request http dec apiKey modelName hreq, hdo]
    dsimp only
    rw [if_pos hne]
    exact ⟨rfl, rfl⟩
  · intro baseURL apiKey audioURL model language enableITN prompt hreq hdo
    rw [callASR_of_request http dec baseURL apiKey audioURL model language enableITN prompt hreq,
      hdo]
    dsimp only
    rw [if_pos hne]
    exact ⟨rfl, rfl⟩

/-- A policy endpoint and an ASR endpoint answering 403 with an empty body. -/
theorem clients_non2xx_witness :
    GetUploadPolicy (statusClient 403) sampleDecoder "k" "qwen3-asr" =
        .error (.api { Code := 502, Message := "External service error: DashScope",
                       Details := "Status: 403, Body: " }) ∧
      CallASR (statusClient 403) sampleDecoder ASREndpoint "k" "oss://ups/a.wav" "qwen3-asr" none
          true "" =
        .error (.api { Code := 502, Message := "External service error: DashScope ASR",
                       Details := "Status: 403, Body: " }) :=
  ⟨((clients_non2xx (statusClient 403) sampleDecoder { StatusCode := 403, Body := "" }
      (Or.inr (by decide))).1 "k" "qwen3-asr" rfl rfl).1,
   ((clients_non2xx (statusClient 403) sampleDecoder { StatusCode := 403, Body := "" }
      (Or.inr (by decide))).2 ASREndpoint "k" "oss://ups/a.wav" "qwen3-asr" none true ""
      rfl rfl).1⟩

/-- C17, as stated, fails: the object store answering 204 makes `UploadToOSS` return the
upload error, and the policy endpoint answering 201 makes `GetUploadPolicy` return an
external-service error without decoding the body. -/
theorem clients_reject_other_2xx :
    UploadToOSS (statusClient 204) "boundary" samplePolicy { data := [1, 2, 3], err := none }
        "a.wav" =
        .error (.api { Code := 500, Message := "File upload failed",
                       Details := "Upload failed with status 204: " }) ∧
      GetUploadPolicy (statusClient 201) sampleDecoder "k" "qwen3-asr" =
        .error (.api { Code := 502, Message := "External service error: DashScope",
                       Details := "Status: 201, Body: " }) :=
  ⟨rfl, rfl⟩

/-- C17, amended. The clients treat exactly the status 200 as success.  On 200
`UploadToOSS` returns the object locator, whatever the body, and `GetUploadPolicy` goes on
to decode the body, so that it returns the decoded policy or the internal-server (decode)
error, never an external-service error.  On every other status `UploadToOSS` returns the
upload error and `GetUploadPolicy` the external-service error. -/
theorem clients_status_200 (http : HTTPClient) (dec : JSONDecoder) (resp : HTTPResponse) :
    (∀ boundary policy file fileName contentType w,
        createMultipartForm bufferSink boundary policy file fileName = .ok (contentType, w) →
        http.NewRequestError "POST" policy.UploadHost = none →
        http.Do (uploadRequest policy contentType w) = .ok resp →
        UploadToOSS http boundary policy file fileName =
          if resp.StatusCode = 200 then .ok ("oss://" ++ (policy.UploadDir ++ "/" ++ fileName))
          else .error (.api (NewUploadError
            ("Upload failed with status " ++ fmtInt resp.StatusCode ++ ": " ++ resp.Body)))) ∧
      (∀ apiKey modelName,
        http.NewRequestError "GET"
          (UploadBaseURL ++ "?action=getPolicy&model=" ++ modelName) = none →
        http.Do (policyRequest apiKey modelName) = .ok resp →
        GetUploadPolicy http dec apiKey modelName =
          if resp.StatusCode = 200 then
            match dec.DecodeUploadPolicy resp.Body with
            | .error err =>
              .error (.api (NewInternalServerError ("Failed to decode response: " ++ err.Error)))
            | .ok data => .ok data
          else .error (.api (NewExternalServiceError "DashScope"
            ("Status: " ++ fmtInt resp.StatusCode ++ ", Body: " ++ resp.Body)))) := by
  constructor
  · intro boundary policy file fileName contentType w hform hreq hdo
    unfold UploadToOSS
    simp only [hform, hreq, hdo]
    by_cases hst : resp.StatusCode = 200
    · have hok : ¬ resp.StatusCode ≠ StatusOK := not_not.mpr hst
      rw [if_neg hok, if_pos hst]
      rfl
    · have hne : resp.StatusCode ≠ StatusOK := hst
      rw [if_pos hne, if_neg hst]
  · intro apiKey modelName hreq hdo
    rw [getUploadPolicy_of_request http dec apiKey modelName hreq, hdo]
    by_cases hst : resp.StatusCode = 200
    · have hok : ¬ resp.StatusCode ≠ StatusOK := not_not.mpr hst
      simp only [if_neg hok, if_pos hst]
    · have hne : resp.StatusCode ≠ StatusOK := hst
      simp only [if_pos hne, if_neg hst]

/-- The object store and the policy endpoint answering 200. -/
theorem clients_status_200_witness :
    UploadToOSS (statusClient 200) "boundary" samplePolicy { data := [1, 2, 3], err := none }
        "a.wav" = .ok "oss://ups/a.wav" ∧
      GetUploadPolicy (statusClient 200) sampleDecoder "k" "qwen3-asr" = .ok samplePolicy :=
  ⟨((clients_status_200 (statusClient 200) sampleDecoder { StatusCode := 200, Body := "" }).1
      "boundary" samplePolicy { data := [1, 2, 3], err := none } "a.wav" _ _ rfl rfl rfl).trans
      rfl,
   ((clients_status_200 (statusClient 200) sampleDecoder { StatusCode := 200, Body := "" }).2
      "k" "qwen3-asr" rfl rfl).trans rfl⟩

/-! ## The uploaded file name -/

/-- The character of a decimal digit is a digit. -/
theorem digitChar_isDigit (d : Nat) (h : d < 10) : (Nat.digitChar d).isDigit = true := by
  interval_cases d <;> rfl

/-- The digit loop of `Nat.repr` produces decimal digits only. -/
theorem toDigitsCore_isDigit (fuel : Nat) : ∀ (n : Nat) (ds : List Char),
    (∀ c ∈ ds, c.isDigit = true) → ∀ c ∈ Nat.toDigitsCore 10 fuel n ds, c.isDigit = true := by
  induction fuel with
  | zero =>
    intro n ds hds c hc
    exact hds c hc
  | succ fuel ih =>
    intro n ds hds c hc
    have hd : (Nat.digitChar (n % 10)).isDigit = true :=
      digitChar_isDigit (n % 10) (Nat.mod_lt n (by decide))
    have hcons : ∀ x ∈ Nat.digitChar (n % 10) :: ds, x.isDigit = true := by
      intro x hx
      rcases List.mem_cons.mp hx with hx | hx
      · rw [hx]
        exact hd
      · exact hds x hx
    unfold Nat.toDigitsCore at hc
    dsimp only at hc
    split at hc
    · exact hcons c hc
    · exact ih (n / 10) _ hcons c hc

/-- The digit loop of `Nat.repr` produces at least one digit. -/
theorem toDigitsCore_ne_nil (fuel : Nat) : ∀ (n : Nat) (ds : List Char),
    (fuel ≠ 0 ∨ ds ≠ []) → Nat.toDigitsCore 10 fuel n ds ≠ [] := by
  induction fuel with
  | zero =>
    intro n ds h
    rcases h with h | h
    · exact absurd rfl h
    · exact h
  | succ fuel ih =>
    intro n ds _
    unfold Nat.toDigitsCore
    dsimp only
    split
    · exact List.cons_ne_nil _ _
    · exact ih (n / 10) _ (Or.inr (List.cons_ne_nil _ _))

/-- A non-negative timestamp gives a name of the form `upload_<digits>`. -/
theorem matchesUploadPattern_of_nonneg (t : Int) (h : 0 ≤ t) :
    matchesUploadPattern ("upload_" ++ fmtInt t) = true := by
  obtain ⟨k, hk⟩ := Int.eq_ofNat_of_zero_le h
  subst hk
  have hlist : ("upload_" ++ fmtInt (k : Int)).toList =
      "upload_".toList ++ Nat.toDigits 10 k := by
    show ("upload_" ++ Nat.repr k).data = _
    rw [String.data_append]
    rfl
  have hne : Nat.toDigits 10 k ≠ [] := toDigitsCore_ne_nil (k + 1) k [] (Or.inl (Nat.succ_ne_zero k))
  have hdig : ∀ c ∈ Nat.toDigits 10 k, c.isDigit = true :=
    toDigitsCore_isDigit (k + 1) k [] (by simp)
  unfold matchesUploadPattern
  rw [hlist]
  have htake : ("upload_".toList ++ Nat.toDigits 10 k).take 7 = "upload_".toList :=
    List.take_left' rfl
  have hdrop : ("upload_".toList ++ Nat.toDigits 10 k).drop 7 = Nat.toDigits 10 k :=
    List.drop_left' rfl
  rw [htake, hdrop]
  simp only [decide_True, Bool.true_and, Bool.and_eq_true, Bool.not_eq_true', List.all_eq_true]
  refine ⟨?_, hdig⟩
  cases hd : Nat.toDigits 10 k with
  | nil => exact absurd hd hne
  | cons x xs => rfl

/-- C15, as stated, fails for a timestamp before the epoch: with the clock one second
before 1970 the name passed to `UploadToOSS` for an empty file name is `upload_-1`, which is
not of the form `upload_<digits>`. -/
theorem uploadFile_fileName_before_epoch :
    (UploadFile sampleRuntime sampleConfig okUploader { UnixNano := -1 } { UnixNano := -1 } "k"
        { data := [1, 2, 3], err := none } (sampleHeader "audio/wav" "" 5) "qwen3-asr" 48).1 =
        [ClientCall.GetUploadPolicy "k" "qwen3-asr",
         ClientCall.UploadToOSS samplePolicy { data := [1, 2, 3], err := none } "upload_-1"] ∧
      matchesUploadPattern "upload_-1" = false := by
  constructor
  · rfl
  · decide

/-- C15, amended. Once validation has passed and a policy is obtained, the file name passed
to `UploadToOSS` is the header's file name when that is non-empty, and otherwise `upload_`
followed by the decimal Unix seconds of the current time; for every timestamp at or after
the epoch that synthesized name is non-empty and of the form `upload_<digits>`. -/
theorem uploadFile_fileName (rt : GoRuntime) (cfg : UploadConfig) (client : Uploader)
    (nowName nowExpire : Time) (apiKey : String) (file : Reader) (header : FileHeader)
    (modelName : String) (validityHours : Int) (policy : UploadPolicyData)
    (hv : ValidateFile rt cfg header = none)
    (hp : client.GetUploadPolicy apiKey modelName = .ok policy) :
    (∃ fileName,
        (UploadFile rt cfg client nowName nowExpire apiKey file header modelName
          validityHours).1 =
          [ClientCall.GetUploadPolicy apiKey modelName,
           ClientCall.UploadToOSS policy file fileName] ∧
        (header.Filename ≠ "" → fileName = header.Filename) ∧
        (header.Filename = "" → fileName = "upload_" ++ fmtInt nowName.Unix)) ∧
      (∀ now : Time, 0 ≤ now.Unix →
        "upload_" ++ fmtInt now.Unix ≠ "" ∧
        matchesUploadPattern ("upload_" ++ fmtInt now.Unix) = true) := by
  constructor
  · refine ⟨uploadFileName header nowName, ?_, ?_, ?_⟩
    · unfold UploadFile
      simp only [hv, hp]
      split <;> rfl
    · intro hne
      unfold uploadFileName
      rw [if_neg hne]
    · intro he
      unfold uploadFileName
      rw [if_pos he]
  · intro now hnow
    refine ⟨?_, matchesUploadPattern_of_nonneg _ hnow⟩
    intro he
    have h2 := congrArg String.data he
    rw [String.data_append] at h2
    exact absurd h2 (by simp)

/-- A named file keeps its name; an unnamed one uploaded at second 1700000000 gets the
name `upload_1700000000`. -/
theorem uploadFile_fileName_witness :
    (UploadFile sampleRuntime sampleConfig okUploader { UnixNano := 1700000000000000000 }
        { UnixNano := 1700000000000000000 } "k" { data := [1, 2, 3], err := none }
        (sampleHeader "audio/wav" "" 5) "qwen3-asr" 48).1 =
        [ClientCall.GetUploadPolicy "k" "qwen3-asr",
         ClientCall.UploadToOSS samplePolicy { data := [1, 2, 3], err := none }
           "upload_1700000000"] ∧
      matchesUploadPattern ("upload_" ++
        fmtInt (Time.Unix { UnixNano := 1700000000000000000 })) = true :=
  ⟨rfl,
   ((uploadFile_fileName sampleRuntime sampleConfig okUploader
      { UnixNano := 1700000000000000000 } { UnixNano := 1700000000000000000 } "k"
      { data := [1, 2, 3], err := none } (sampleHeader "audio/wav" "" 5) "qwen3-asr" 48
      samplePolicy (by decide) rfl).2 { UnixNano := 1700000000000000000 } (by decide)).2⟩

/-! ## Content type resolution -/

/-- C18. Within the size limit, a non-empty declared `Content-Type` is the type that
`ValidateFile` checks, and the outcome is then the same for every file name; with an empty
declared type it checks the type that the MIME table gives for the lower-cased extension of
the file name; and when that is empty too it returns the unsupported-type error. -/
theorem validateFile_type_resolution (rt : GoRuntime) (cfg : UploadConfig) (header : FileHeader)
    (h : header.Size ≤ cfg.MaxFileSize) :
    (header.Header.Get "Content-Type" ≠ "" →
        ValidateFile rt cfg header =
          (if isContentTypeAllowed rt cfg (header.Header.Get "Content-Type") = true then none
           else some (NewFileTypeError cfg.AllowedTypes)) ∧
        ∀ filename, ValidateFile rt cfg { header with Filename := filename } =
          ValidateFile rt cfg header) ∧
      (header.Header.Get "Content-Type" = "" →
        ValidateFile rt cfg header =
          (if rt.TypeByExtension (ToLower rt (Ext rt header.Filename)) ≠ "" ∧
              isContentTypeAllowed rt cfg
                (rt.TypeByExtension (ToLower rt (Ext rt header.Filename))) = true
           then none else some (NewFileTypeError cfg.AllowedTypes))) ∧
      (header.Header.Get "Content-Type" = "" →
        rt.TypeByExtension (ToLower rt (Ext rt header.Filename)) = "" →
        ValidateFile rt cfg header = some (NewFileTypeError cfg.AllowedTypes)) := by
  have hv := validateFile_of_size_le rt cfg header h
  refine ⟨?_, ?_, ?_⟩
  · intro hne
    have hres : ∀ filename,
        resolveContentType rt { header with Filename := filename } =
          header.Header.Get "Content-Type" := by
      intro filename
      unfold resolveContentType
      dsimp only
      rw [if_neg hne]
    have hres0 : resolveContentType rt header = header.Header.Get "Content-Type" :=
      hres header.Filename
    have hmain : ∀ filename, ValidateFile rt cfg { header with Filename := filename } =
        (if isContentTypeAllowed rt cfg (header.Header.Get "Content-Type") = true then none
         else some (NewFileTypeError cfg.AllowedTypes)) := by
      intro filename
      rw [validateFile_of_size_le rt cfg { header with Filename := filename } h, hres filename]
      by_cases ha : isContentTypeAllowed rt cfg (header.Header.Get "Content-Type") = true
      · rw [if_pos ⟨hne, ha⟩, if_pos ha]
      · rw [if_neg (fun hc => ha hc.2), if_neg ha]
    have hself : ValidateFile rt cfg header =
        (if isContentTypeAllowed rt cfg (header.Header.Get "Content-Type") = true then none
         else some (NewFileTypeError cfg.AllowedTypes)) := hmain header.Filename
    exact ⟨hself, fun filename => (hmain filename).trans hself.symm⟩
  · intro he
    have hres : resolveContentType rt header =
        rt.TypeByExtension (ToLower rt (Ext rt header.Filename)) := by
      unfold resolveContentType
      dsimp only
      rw [if_pos he]
    rw [hv, hres]
  · intro he hext
    have hres : resolveContentType rt header = "" := by
      unfold resolveContentType
      dsimp only
      rw [if_pos he, hext]
    rw [hv, hres]
    exact if_neg (fun hc => hc.1 rfl)

/-- The three cases of C18 with a MIME table that knows `.wav`: a file named `a.wav`
declared `text/plain` is rejected, a file named `A.WAV` without declared type is accepted,
and a file without declared type and without extension is rejected. -/
theorem validateFile_type_resolution_witness :
    ValidateFile wavRuntime sampleConfig (sampleHeader "text/plain" "a.wav" 5) =
        some (NewFileTypeError ["audio/wav"]) ∧
      ValidateFile wavRuntime sampleConfig { Filename := "A.WAV", Header := [], Size := 5 } =
        none ∧
      ValidateFile wavRuntime sampleConfig { Filename := "noext", Header := [], Size := 5 } =
        some (NewFileTypeError ["audio/wav"]) :=
  ⟨(((validateFile_type_resolution wavRuntime sampleConfig (sampleHeader "text/plain" "a.wav" 5)
        (by decide)).1 (by decide)).1).trans (by decide),
   ((validateFile_type_resolution wavRuntime sampleConfig
        { Filename := "A.WAV", Header := [], Size := 5 } (by decide)).2.1 (by decide)).trans
      (by decide),
   (validateFile_type_resolution wavRuntime sampleConfig
        { Filename := "noext", Header := [], Size := 5 } (by decide)).2.2 (by decide)
      (by decide)⟩

/-! ## The successful request -/

/-- An upload that succeeds records the model it was asked for. -/
theorem uploadFile_ok_modelUsed (rt : GoRuntime) (cfg : UploadConfig) (client : Uploader)
    (nowName nowExpire : Time) (apiKey : String) (file : Reader) (header : FileHeader)
    (modelName : String) (validityHours : Int) (uploadResult : UploadResult)
    (h : (UploadFile rt cfg client nowName nowExpire apiKey file header modelName
      validityHours).2 = .ok uploadResult) :
    uploadResult.ModelUsed = modelName := by
  unfold UploadFile at h
  cases hv : ValidateFile rt cfg header with
  | some e =>
    rw [hv] at h
    exact Except.noConfusion h
  | none =>
    rw [hv] at h
    dsimp only at h
    cases hp : client.GetUploadPolicy apiKey modelName with
    | error err =>
      rw [hp] at h
      exact Except.noConfusion h
    | ok policy =>
      rw [hp] at h
      dsimp only at h
      cases hu : client.UploadToOSS policy file (uploadFileName header nowName) with
      | error err =>
        rw [hu] at h
        exact Except.noConfusion h
      | ok url =>
        rw [hu] at h
        have h2 := Except.ok.inj h
        rw [← h2]

/-- C19. When the upload and the transcription both succeed, the handler answers 200 with
the response of `ConvertToOpenAIFormat` for the ASR response, in which only two fields are
set afterwards: the upload-info, always present, with the upload result's locator, its
expiry in RFC 3339 and the request's model, and the processing time, the elapsed time in
milliseconds, which is also the one handed to `ConvertToOpenAIFormat`. -/
theorem transcription_success (rt : GoRuntime) (cfg : UploadConfig) (client : Uploader)
    (nowName nowExpire : Time) (provider : ASRProvider) (elapsed : Int) (c : GinRequest)
    (file : Reader) (header : FileHeader) (apiKeyStr : String) (uploadResult : UploadResult)
    (asrResponse : Option ASRResponse)
    (hfile : c.FormFile = some (file, header))
    (hkey : c.APIKey = some (ContextValue.str apiKeyStr))
    (hmodel : c.PostForm "model" ≠ "")
    (hlang : c.PostForm "language" = "" ∨ c.PostForm "language" ∈ SupportedLanguages)
    (hup : (UploadFile rt cfg client nowName nowExpire apiKeyStr file header
      (c.PostForm "model") 48).2 = .ok uploadResult)
    (hasr : provider.CallASR apiKeyStr uploadResult.OSSURL (c.PostForm "model")
      (if c.PostForm "language" ≠ "" then some (c.PostForm "language") else none) true
      (c.PostForm "prompt") = .ok asrResponse) :
    (Transcription rt (UploadService.asService rt cfg client nowName nowExpire)
        (ASRService.asService provider) elapsed c).2 =
      { Status := 200,
        Body := ResponseBody.transcription
          { ConvertToOpenAIFormat asrResponse (Milliseconds elapsed) with
            UploadInfo := some { OSSURL := uploadResult.OSSURL,
                                 ExpireTime := rt.FormatRFC3339 uploadResult.ExpireTime,
                                 ModelUsed := c.PostForm "model" },
            ProcessingTime := Milliseconds elapsed } } := by
  have hgate : ¬ (c.PostForm "language" ≠ "" ∧
      (!IsValidLanguage (c.PostForm "language")) = true) := by
    rintro ⟨hne, hinv⟩
    rcases hlang with h0 | hin
    · exact hne h0
    · rw [(mem_supportedLanguages_iff _).mpr hin] at hinv
      exact Bool.noConfusion hinv
  have hmodelUsed := uploadFile_ok_modelUsed rt cfg client nowName nowExpire apiKeyStr file header
    (c.PostForm "model") 48 uploadResult hup
  unfold Transcription
  simp only [hfile, hkey]
  rw [if_neg hmodel, if_neg hgate]
  simp only [UploadService.asService, ASRService.asService, TranscribeAudio, hup, hasr,
    hmodelUsed]
  rfl

/-- A one-kilobyte-like wav upload transcribed as "hello world" without annotations after
1.5 seconds: status 200, that text, task "transcribe", language "", the upload-info and a
processing time of 1500 ms. -/
theorem transcription_success_witness :
    (Transcription sampleRuntime
        (UploadService.asService sampleRuntime sampleConfig okUploader { UnixNano := 0 }
          { UnixNano := 0 })
        (ASRService.asService
          (okASRProvider (sampleResponse [{ Text := "hello world", Audio := "" }] [])))
        1500000000 (sampleRequest (sampleHeader "audio/wav" "a.wav" 5) "")).2 =
      { Status := 200,
        Body := ResponseBody.transcription
          { Text := "hello world", Task := "transcribe", Language := "",
            Duration := { bits := 4611686018427387904 }, Words := [],
            UploadInfo := some { OSSURL := "oss://ups/a.wav",
                                 ExpireTime := "172800000000000",
                                 ModelUsed := "qwen3-asr" },
            ProcessingTime := 1500 } } :=
  (transcription_success sampleRuntime sampleConfig okUploader { UnixNano := 0 }
    { UnixNano := 0 }
    (okASRProvider (sampleResponse [{ Text := "hello world", Audio := "" }] []))
    1500000000 (sampleRequest (sampleHeader "audio/wav" "a.wav" 5) "")
    { data := [1, 2, 3], err := none } (sampleHeader "audio/wav" "a.wav" 5) "k"
    { OSSURL := "oss://ups/a.wav", ExpireTime := { UnixNano := 172800000000000 },
      ModelUsed := "qwen3-asr" }
    (some (sampleResponse [{ Text := "hello world", Audio := "" }] []))
    rfl rfl (by decide) (Or.inl rfl) rfl rfl).trans rfl

end Qwen3Compat
